import Mathlib

/-!
# quix: the frame loop of `examples/main.cpp` and the descriptor builder of `quix::instance`

A shallow embedding of

* the `while (window->should_close() == false)` loop of `main` in
  `src/examples/main.cpp` (lines 126-175), and
* `instance::create_device`, `instance::get_descriptor_builder` and the other
  member functions of `src/quix/quix_instance.cpp`.

The collaborators called by the loop (`window`, `sync_objects`, `render_target`,
`command_lists`) are not part of the embedded code.  Every call to one of them
is recorded as an `Event`; what a call returns is read from an `Env`, one per
pass through the loop, so the loop is a function from the collaborators'
answers to the sequence of calls it makes.
-/

namespace Quix

/-! ## Driver status codes -/

/-- The C enum `VkResult` of `vulkan_core.h`, as its integer value. -/
abbrev VkResult := Int

/-- `VK_SUCCESS = 0` in `vulkan_core.h`. -/
def VK_SUCCESS : VkResult := 0

/-- `VK_SUBOPTIMAL_KHR = 1000001003` in `vulkan_core.h`. -/
def VK_SUBOPTIMAL_KHR : VkResult := 1000001003

/-- `VK_ERROR_OUT_OF_DATE_KHR = -1000001004` in `vulkan_core.h`. -/
def VK_ERROR_OUT_OF_DATE_KHR : VkResult := -1000001004

/-- `VK_ERROR_DEVICE_LOST = -4` in `vulkan_core.h`; one of the statuses the loop
does not name. -/
def VK_ERROR_DEVICE_LOST : VkResult := -4

/-- `static constexpr int FRAMES_IN_FLIGHT = 2;` (main.cpp line 11). -/
def FRAMES_IN_FLIGHT : Int := 2

/-! ## Calls made by the loop -/

/-- One call made by `main` to a collaborator, with the arguments the loop passes
and (for calls whose result the loop reads) the result it got back. -/
inductive Event where
  /-- `window->should_close()` returning `r` (line 139). -/
  | should_close (r : Bool)
  /-- `window->poll_events()` (line 140). -/
  | poll_events
  /-- `sync_objects->acquire_next_image(slot, &current_image_index)` returning
  `result`, with `image` the value of `current_image_index` when the call
  returns (line 142). -/
  | acquire_next_image (slot : Int) (result : VkResult) (image : Nat)
  /-- `render_target->recreate_swapchain()` (lines 144 and 166). -/
  | recreate_swapchain
  /-- `quix_error(msg)`: prints and calls `exit(EXIT_FAILURE)` (lines 147, 168). -/
  | quix_error (msg : String)
  /-- `sync_objects->reset_fence(slot)` (line 149). -/
  | reset_fence (slot : Int)
  /-- `command_lists[slot]->begin_record()` (line 151). -/
  | begin_record (slot : Int)
  /-- `command_lists[slot]->begin_render_pass(render_target, pipeline, image, ..)`
  (line 153). -/
  | begin_render_pass (slot : Int) (image : Nat)
  /-- `vkCmdDraw(command_lists[slot]->get_cmd_buffer(), 3, 1, 0, 0)` (line 155). -/
  | vkCmdDraw (slot : Int)
  /-- `command_lists[slot]->end_render_pass()` (line 157). -/
  | end_render_pass (slot : Int)
  /-- `command_lists[slot]->end_record()` (line 159). -/
  | end_record (slot : Int)
  /-- `sync_objects->submit_frame(slot, command_lists[slot].get())` returning
  `result` (line 161). -/
  | submit_frame (slot : Int) (result : VkResult)
  /-- The failing branch of `VK_CHECK(result, msg)`: prints and calls
  `exit(EXIT_FAILURE)` (quix_pch.hpp lines 62-66, used at main.cpp line 161). -/
  | VK_CHECK_failed (msg : String)
  /-- `sync_objects->present_frame(slot, image)` returning `result` (line 163). -/
  | present_frame (slot : Int) (image : Nat) (result : VkResult)
  /-- `window->get_framebuffer_resized()` returning `r` (line 165). -/
  | get_framebuffer_resized (r : Bool)
  /-- `instance.wait_idle()` (line 173). -/
  | wait_idle
  deriving DecidableEq

/-- What the collaborators answer during one pass through the loop.  A field is
read only if the pass makes the corresponding call. -/
structure Env where
  /-- Result of `window->should_close()`. -/
  should_close : Bool
  /-- Status returned by `acquire_next_image`. -/
  acquire_result : VkResult
  /-- Value of `current_image_index` (a `uint32_t`) when `acquire_next_image`
  returns. -/
  acquire_image : Nat
  /-- Status returned by `submit_frame`. -/
  submit_result : VkResult
  /-- Status returned by `present_frame`. -/
  present_result : VkResult
  /-- Result of `window->get_framebuffer_resized()`. -/
  framebuffer_resized : Bool
  deriving DecidableEq

/-- The two locals of `main` that the loop reads and writes (lines 126-127). -/
structure LoopState where
  /-- The local `int current_frame`. -/
  current_frame : Int
  /-- The local `uint32_t current_image_index`. -/
  current_image_index : Nat
  deriving DecidableEq

/-- How one pass through the loop ends. -/
inductive Flow where
  /-- The end of the body or `continue` was reached; the loop condition is
  evaluated again with these locals. -/
  | next (st : LoopState)
  /-- The loop condition was false: control leaves the `while`. -/
  | leave
  /-- The process ended in `exit(EXIT_FAILURE)`. -/
  | exit_failure
  deriving DecidableEq

/-- The calls of lines 149-161 for slot `f` and image `img`, up to and including
`submit_frame`, which returns `r`. -/
def record_and_submit (f : Int) (img : Nat) (r : VkResult) : List Event :=
  [ Event.reset_fence f,
    Event.begin_record f,
    Event.begin_render_pass f img,
    Event.vkCmdDraw f,
    Event.end_render_pass f,
    Event.end_record f,
    Event.submit_frame f r ]

/-- Lines 163-170: `present_frame`, the decision about recreation, and the
rotation of `current_frame`.  The `||` of line 165 evaluates
`get_framebuffer_resized()` only when both comparisons are false.  The `%` of
line 170 is the truncating remainder of C on `int`; `current_frame + 1` stays
far from the limits of `int` because `current_frame` is below
`FRAMES_IN_FLIGHT` (see `passes_in_range`). -/
def present_and_rotate (f : Int) (img : Nat) (e : Env) : List Event × Flow :=
  let result := e.present_result
  let rotated : LoopState := ⟨Int.tmod (f + 1) FRAMES_IN_FLIGHT, img⟩
  if result = VK_ERROR_OUT_OF_DATE_KHR ∨ result = VK_SUBOPTIMAL_KHR then
    ([Event.present_frame f img result, Event.recreate_swapchain], Flow.next rotated)
  else if e.framebuffer_resized = true then
    ([Event.present_frame f img result, Event.get_framebuffer_resized true,
      Event.recreate_swapchain], Flow.next rotated)
  else if result ≠ VK_SUCCESS then
    ([Event.present_frame f img result, Event.get_framebuffer_resized false,
      Event.quix_error ("failed to present swapchain image")], Flow.exit_failure)
  else
    ([Event.present_frame f img result, Event.get_framebuffer_resized false],
      Flow.next rotated)

/-- One evaluation of the loop condition followed, when it holds, by one
execution of the body (lines 139-171). -/
def loop_body (st : LoopState) (e : Env) : List Event × Flow :=
  if e.should_close = true then
    ([Event.should_close true], Flow.leave)
  else
    let f := st.current_frame
    let img := e.acquire_image
    let result := e.acquire_result
    let head := [Event.should_close false, Event.poll_events,
      Event.acquire_next_image f result img]
    if result = VK_ERROR_OUT_OF_DATE_KHR then
      (head ++ [Event.recreate_swapchain], Flow.next ⟨f, img⟩)
    else if result ≠ VK_SUCCESS ∧ result ≠ VK_SUBOPTIMAL_KHR then
      (head ++ [Event.quix_error ("failed to acquire swapchain image")], Flow.exit_failure)
    else if e.submit_result ≠ VK_SUCCESS then
      (head ++ record_and_submit f img e.submit_result
        ++ [Event.VK_CHECK_failed ("failed to submit frame")], Flow.exit_failure)
    else
      let tail := present_and_rotate f img e
      (head ++ record_and_submit f img e.submit_result ++ tail.1, tail.2)

/-- One executed pass through the loop: the locals before it, the answers it
received, the calls it made and how it ended. -/
structure Pass where
  /-- Locals when the loop condition is evaluated. -/
  before : LoopState
  /-- Answers of the collaborators during the pass. -/
  env : Env
  /-- Calls made, in order. -/
  events : List Event
  /-- How the pass ended. -/
  flow : Flow
  deriving DecidableEq

/-- The pass executed from locals `st` when the collaborators answer `e`. -/
def pass_of (st : LoopState) (e : Env) : Pass :=
  ⟨st, e, (loop_body st e).1, (loop_body st e).2⟩

/-- The passes executed from locals `st` when the collaborators answer `envs`,
one entry per pass; passes after a `leave` or an `exit` are not executed. -/
def passes (st : LoopState) : List Env → List Pass
  | [] => []
  | e :: es =>
    pass_of st e ::
      (match (loop_body st e).2 with
       | Flow.next st1 => passes st1 es
       | Flow.leave => []
       | Flow.exit_failure => [])

/-- The calls made by the loop started with locals `st`, followed by
`instance.wait_idle()` (line 173) once the loop has been left.  When `envs` is
used up while the loop is still running, this is the sequence of calls made so
far. -/
def loop_trace (st : LoopState) : List Env → List Event
  | [] => []
  | e :: es =>
    (loop_body st e).1 ++
      (match (loop_body st e).2 with
       | Flow.next st1 => loop_trace st1 es
       | Flow.leave => [Event.wait_idle]
       | Flow.exit_failure => [])

/-- Lines 126-127: `int current_frame = 0; uint32_t current_image_index = 0;`. -/
def initial : LoopState := ⟨0, 0⟩

/-- The calls `main` makes from line 139 on. -/
def main_trace (envs : List Env) : List Event := loop_trace initial envs

/-- The passes `main` executes. -/
def main_passes (envs : List Env) : List Pass := passes initial envs

/-! ## Reading a sequence of calls -/

/-- The frame slot a call is made with, for the calls that take one. -/
def Event.slot? : Event → Option Int
  | Event.acquire_next_image s _ _ => some s
  | Event.reset_fence s => some s
  | Event.begin_record s => some s
  | Event.begin_render_pass s _ => some s
  | Event.vkCmdDraw s => some s
  | Event.end_render_pass s => some s
  | Event.end_record s => some s
  | Event.submit_frame s _ => some s
  | Event.present_frame s _ _ => some s
  | _ => none

/-- The swapchain image index a call writes (`acquire_next_image`) or is passed
(`begin_render_pass`, `present_frame`). -/
def Event.image? : Event → Option Nat
  | Event.acquire_next_image _ _ i => some i
  | Event.begin_render_pass _ i => some i
  | Event.present_frame _ i _ => some i
  | _ => none

/-- Calls that work on an acquired frame: the fence reset, the recording calls,
submit and present. -/
def Event.uses_frame : Event → Bool
  | Event.reset_fence _ => true
  | Event.begin_record _ => true
  | Event.begin_render_pass _ _ => true
  | Event.vkCmdDraw _ => true
  | Event.end_render_pass _ => true
  | Event.end_record _ => true
  | Event.submit_frame _ _ => true
  | Event.present_frame _ _ _ => true
  | _ => false

/-- Scan of a call sequence for the rule "an acquire that returned
`VK_ERROR_OUT_OF_DATE_KHR` is followed, before the next acquire, by exactly one
`recreate_swapchain` and by no call that works on a frame".  `pending = some n`
means that the latest acquire returned out-of-date and `n` recreations have
followed it; `pending = none` means that the latest acquire, if any, returned
something else. -/
def abandoned_frames_ok (pending : Option Nat) : List Event → Bool
  | [] => decide (pending = none ∨ pending = some 1)
  | Event.acquire_next_image _ r _ :: es =>
    decide (pending = none ∨ pending = some 1) &&
      abandoned_frames_ok (if r = VK_ERROR_OUT_OF_DATE_KHR then some 0 else none) es
  | Event.recreate_swapchain :: es =>
    abandoned_frames_ok (pending.map (fun n => n + 1)) es
  | ev :: es =>
    (pending.isNone || !ev.uses_frame) && abandoned_frames_ok pending es

/-- Where a call sequence stands with respect to the acquire/present pairing. -/
inductive Phase where
  /-- No `acquire_next_image` and no `present_frame` has been called yet. -/
  | start
  /-- The latest of the two kinds of call was an `acquire_next_image`, which
  returned `result`. -/
  | acquired (result : VkResult)
  /-- The latest of the two kinds of call was a `present_frame`. -/
  | presented
  deriving DecidableEq

/-- Scan of a call sequence: every `recreate_swapchain` happens in a phase
accepted by `allowed`. -/
def recreate_only_in (allowed : Phase → Bool) : Phase → List Event → Bool
  | _, [] => true
  | _, Event.acquire_next_image _ r _ :: es => recreate_only_in allowed (Phase.acquired r) es
  | _, Event.present_frame _ _ _ :: es => recreate_only_in allowed Phase.presented es
  | ph, Event.recreate_swapchain :: es => allowed ph && recreate_only_in allowed ph es
  | ph, _ :: es => recreate_only_in allowed ph es

/-- Recreation is allowed only after a `present_frame` with no
`acquire_next_image` since. -/
def after_present_only : Phase → Bool
  | Phase.presented => true
  | _ => false

/-- Recreation is allowed after a `present_frame` with no `acquire_next_image`
since, and after an `acquire_next_image` that returned
`VK_ERROR_OUT_OF_DATE_KHR` with no `present_frame` since. -/
def after_present_or_out_of_date : Phase → Bool
  | Phase.presented => true
  | Phase.acquired r => decide (r = VK_ERROR_OUT_OF_DATE_KHR)
  | Phase.start => false

/-- Where a call sequence stands within a frame. -/
inductive FramePhase where
  /-- No `acquire_next_image` has been called yet. -/
  | before_first
  /-- The latest acquire returned `VK_ERROR_OUT_OF_DATE_KHR`: the frame is
  abandoned, and stays so until the next acquire. -/
  | abandoned
  /-- The latest acquire returned another status, and no call has worked on the
  frame yet. -/
  | acquired
  /-- Calls have worked on the acquired frame (fence reset, recording, submit),
  and it has not been presented yet. -/
  | in_frame
  /-- The frame has been presented, and no acquire has followed. -/
  | presented
  deriving DecidableEq

/-- Scan of a call sequence for the placement of recreation within frames:

* `recreate_swapchain` is accepted only when the latest frame has been presented,
  or when the latest acquire returned `VK_ERROR_OUT_OF_DATE_KHR`; it is refused
  before the first acquire and between an acquire with another status and the
  `present_frame` of that frame;
* after an out-of-date acquire, no fence reset, recording call, `submit_frame` or
  `present_frame` is accepted until the next acquire, before or after the
  recreation;
* calls that work on a frame are accepted only on an acquired frame that has not
  been presented. -/
def recreation_between_frames : FramePhase → List Event → Bool
  | _, [] => true
  | _, Event.acquire_next_image _ r _ :: es =>
    recreation_between_frames
      (if r = VK_ERROR_OUT_OF_DATE_KHR then FramePhase.abandoned else FramePhase.acquired) es
  | ph, Event.present_frame _ _ _ :: es =>
    decide (ph = FramePhase.acquired ∨ ph = FramePhase.in_frame) &&
      recreation_between_frames FramePhase.presented es
  | ph, Event.recreate_swapchain :: es =>
    decide (ph = FramePhase.presented ∨ ph = FramePhase.abandoned) &&
      recreation_between_frames ph es
  | ph, ev :: es =>
    if ev.uses_frame = true then
      decide (ph = FramePhase.acquired ∨ ph = FramePhase.in_frame) &&
        recreation_between_frames FramePhase.in_frame es
    else recreation_between_frames ph es

/-! ## `quix::instance` -/

/-- The address of an object made by `allocate_shared` / `allocate_unique`, or
passed in by the caller. -/
abbrev Ptr := Nat

/-- Modelled from the spec: the type `descriptor::builder` is declared in
`quix_descriptor.hpp`, which is not among the sources.  The spec describes a
builder as resolving its binding set "through the Layout Cache and Allocator
Pool"; `get_descriptor_builder` constructs it from exactly these two pointers,
which are kept here in the order of the braced initialiser. -/
structure descriptor.builder where
  /-- First initialiser: the `descriptor::layout_cache*`; `none` is `nullptr`. -/
  layout_cache : Option Ptr
  /-- Second initialiser: the `descriptor::allocator_pool*`; `none` is `nullptr`. -/
  allocator_pool : Option Ptr
  deriving DecidableEq

/-- The data members of `quix::instance` assigned in `quix_instance.cpp`; `none`
is `nullptr`. -/
structure Instance where
  /-- The member `m_window`. -/
  m_window : Option Ptr
  /-- The member `m_device`. -/
  m_device : Option Ptr
  /-- The member `m_swapchain`. -/
  m_swapchain : Option Ptr
  /-- The member `m_pipeline_manager`. -/
  m_pipeline_manager : Option Ptr
  /-- The member `m_descriptor_allocator`. -/
  m_descriptor_allocator : Option Ptr
  /-- The member `m_descriptor_layout_cache`. -/
  m_descriptor_layout_cache : Option Ptr
  deriving DecidableEq

/-- The constructor (lines 17-33): window and device are allocated, at
`window_ptr` and `device_ptr`; the four other members start as `nullptr`. -/
def Instance.ctor (window_ptr device_ptr : Ptr) : Instance :=
  ⟨some window_ptr, some device_ptr, none, none, none, none⟩

/-- `instance::create_device` (lines 37-43): after `m_device->init`, a descriptor
allocator and a layout cache are allocated, at `allocator_ptr` and `cache_ptr`,
and stored in the two members. -/
def Instance.create_device (self : Instance) (allocator_ptr cache_ptr : Ptr) : Instance :=
  ⟨self.m_window, self.m_device, self.m_swapchain, self.m_pipeline_manager,
    some allocator_ptr, some cache_ptr⟩

/-- `instance::create_swapchain` (lines 45-48): the new swapchain, allocated at
`swapchain_ptr`, is stored in `m_swapchain`. -/
def Instance.create_swapchain (self : Instance) (swapchain_ptr : Ptr) : Instance :=
  ⟨self.m_window, self.m_device, some swapchain_ptr, self.m_pipeline_manager,
    self.m_descriptor_allocator, self.m_descriptor_layout_cache⟩

/-- `instance::create_pipeline_manager` (lines 50-53): the new manager, allocated
at `manager_ptr`, is stored in `m_pipeline_manager`. -/
def Instance.create_pipeline_manager (self : Instance) (manager_ptr : Ptr) : Instance :=
  ⟨self.m_window, self.m_device, self.m_swapchain, some manager_ptr,
    self.m_descriptor_allocator, self.m_descriptor_layout_cache⟩

/-- `instance::get_descriptor_builder` (lines 102-105):
`return descriptor::builder { m_descriptor_layout_cache.get(), allocator_pool };`. -/
def Instance.get_descriptor_builder (self : Instance) (allocator_pool : Option Ptr) :
    descriptor.builder :=
  ⟨self.m_descriptor_layout_cache, allocator_pool⟩

/-- A call of a member function of `quix::instance`, with the addresses of the
objects it allocates and the pointer arguments the model keeps. -/
inductive Call where
  /-- `create_device(..)`, allocating at `allocator_ptr` and `cache_ptr`. -/
  | create_device (allocator_ptr cache_ptr : Ptr)
  /-- `create_swapchain(..)`, allocating at `swapchain_ptr`. -/
  | create_swapchain (swapchain_ptr : Ptr)
  /-- `create_pipeline_manager()`, allocating at `manager_ptr`. -/
  | create_pipeline_manager (manager_ptr : Ptr)
  /-- `get_command_pool()`: returns a fresh `command_pool`, assigns no member. -/
  | get_command_pool
  /-- `create_render_target(..)`: returns a fresh `render_target`, assigns no
  member. -/
  | create_render_target
  /-- `create_sync_objects()`: returns a fresh `sync`, assigns no member. -/
  | create_sync_objects
  /-- `wait_idle()`: calls `m_device->wait_idle()`, assigns no member. -/
  | wait_idle
  /-- `get_window() const`. -/
  | get_window
  /-- `get_logical_device() const`. -/
  | get_logical_device
  /-- `get_surface_format() const`. -/
  | get_surface_format
  /-- `get_pipeline_manager() const`. -/
  | get_pipeline_manager
  /-- `get_descriptor_allocator_pool() const`. -/
  | get_descriptor_allocator_pool
  /-- `get_descriptor_builder(allocator_pool) const`. -/
  | get_descriptor_builder (allocator_pool : Option Ptr)
  /-- `get_device() const`. -/
  | get_device
  deriving DecidableEq

/-- Whether the call is a `create_device`. -/
def Call.is_create_device : Call → Bool
  | Call.create_device _ _ => true
  | _ => false

/-- The members of the instance after a call of one of its member functions.
Only `create_device`, `create_swapchain` and `create_pipeline_manager` contain an
assignment to a member. -/
def Instance.after (self : Instance) : Call → Instance
  | Call.create_device a c => self.create_device a c
  | Call.create_swapchain p => self.create_swapchain p
  | Call.create_pipeline_manager p => self.create_pipeline_manager p
  | _ => self

/-- The members of the instance after a sequence of calls, in order. -/
def Instance.after_all (self : Instance) (calls : List Call) : Instance :=
  calls.foldl Instance.after self

/-! ## Sample answers of the collaborators -/

/-- A pass in which every call returns `VK_SUCCESS`, image `img` is acquired and
the window is neither closing nor resized. -/
def env_success (img : Nat) : Env :=
  ⟨false, VK_SUCCESS, img, VK_SUCCESS, VK_SUCCESS, false⟩

/-- A pass in which `acquire_next_image` returns `VK_ERROR_OUT_OF_DATE_KHR`. -/
def env_acquire_out_of_date (img : Nat) : Env :=
  ⟨false, VK_ERROR_OUT_OF_DATE_KHR, img, VK_SUCCESS, VK_SUCCESS, false⟩

/-- A pass in which `acquire_next_image` returns `VK_SUBOPTIMAL_KHR` and every
other call returns `VK_SUCCESS`, on a window that is not resized. -/
def env_acquire_suboptimal (img : Nat) : Env :=
  ⟨false, VK_SUBOPTIMAL_KHR, img, VK_SUCCESS, VK_SUCCESS, false⟩

/-- A pass in which `present_frame` returns `VK_ERROR_DEVICE_LOST` and the window
answers `resized` to `get_framebuffer_resized()`. -/
def env_present_device_lost (img : Nat) (resized : Bool) : Env :=
  ⟨false, VK_SUCCESS, img, VK_SUCCESS, VK_ERROR_DEVICE_LOST, resized⟩

/-- Scenario A of the spec: three passes in which every call returns
`VK_SUCCESS`, on a window that is not resized. -/
def scenario_A : List Env :=
  [env_success 0, env_success 1, env_success 2]

/-- Scenario B of the spec: three passes, the second of which gets
`VK_ERROR_OUT_OF_DATE_KHR` from `acquire_next_image`; every other call returns
`VK_SUCCESS`. -/
def scenario_B : List Env :=
  [env_success 0, env_acquire_out_of_date 1, env_success 1]

/-! ## Auxiliary facts about one pass -/

/-- The three status codes the loop names are pairwise different. -/
theorem status_codes_distinct :
    VK_SUCCESS ≠ VK_SUBOPTIMAL_KHR ∧ VK_SUCCESS ≠ VK_ERROR_OUT_OF_DATE_KHR ∧
    VK_SUBOPTIMAL_KHR ≠ VK_ERROR_OUT_OF_DATE_KHR := by
  decide

/-- The eight ways through one pass of the loop. -/
theorem loop_body_cases (st : LoopState) (e : Env) :
    (e.should_close = true ∧
      loop_body st e = ([Event.should_close true], Flow.leave)) ∨
    ((e.should_close = false ∧ e.acquire_result = VK_ERROR_OUT_OF_DATE_KHR) ∧
      loop_body st e =
        ([Event.should_close false, Event.poll_events,
          Event.acquire_next_image st.current_frame e.acquire_result e.acquire_image,
          Event.recreate_swapchain],
         Flow.next ⟨st.current_frame, e.acquire_image⟩)) ∨
    ((e.should_close = false ∧ e.acquire_result ≠ VK_ERROR_OUT_OF_DATE_KHR ∧
      e.acquire_result ≠ VK_SUCCESS ∧ e.acquire_result ≠ VK_SUBOPTIMAL_KHR) ∧
      loop_body st e =
        ([Event.should_close false, Event.poll_events,
          Event.acquire_next_image st.current_frame e.acquire_result e.acquire_image,
          Event.quix_error ("failed to acquire swapchain image")],
         Flow.exit_failure)) ∨
    ((e.should_close = false ∧
      (e.acquire_result = VK_SUCCESS ∨ e.acquire_result = VK_SUBOPTIMAL_KHR) ∧
      e.submit_result ≠ VK_SUCCESS) ∧
      loop_body st e =
        ([Event.should_close false, Event.poll_events,
          Event.acquire_next_image st.current_frame e.acquire_result e.acquire_image,
          Event.reset_fence st.current_frame,
          Event.begin_record st.current_frame,
          Event.begin_render_pass st.current_frame e.acquire_image,
          Event.vkCmdDraw st.current_frame,
          Event.end_render_pass st.current_frame,
          Event.end_record st.current_frame,
          Event.submit_frame st.current_frame e.submit_result,
          Event.VK_CHECK_failed ("failed to submit frame")],
         Flow.exit_failure)) ∨
    ((e.should_close = false ∧
      (e.acquire_result = VK_SUCCESS ∨ e.acquire_result = VK_SUBOPTIMAL_KHR) ∧
      e.submit_result = VK_SUCCESS ∧
      (e.present_result = VK_ERROR_OUT_OF_DATE_KHR ∨ e.present_result = VK_SUBOPTIMAL_KHR)) ∧
      loop_body st e =
        ([Event.should_close false, Event.poll_events,
          Event.acquire_next_image st.current_frame e.acquire_result e.acquire_image,
          Event.reset_fence st.current_frame,
          Event.begin_record st.current_frame,
          Event.begin_render_pass st.current_frame e.acquire_image,
          Event.vkCmdDraw st.current_frame,
          Event.end_render_pass st.current_frame,
          Event.end_record st.current_frame,
          Event.submit_frame st.current_frame e.submit_result,
          Event.present_frame st.current_frame e.acquire_image e.present_result,
          Event.recreate_swapchain],
         Flow.next ⟨Int.tmod (st.current_frame + 1) FRAMES_IN_FLIGHT, e.acquire_image⟩)) ∨
    ((e.should_close = false ∧
      (e.acquire_result = VK_SUCCESS ∨ e.acquire_result = VK_SUBOPTIMAL_KHR) ∧
      e.submit_result = VK_SUCCESS ∧
      e.present_result ≠ VK_ERROR_OUT_OF_DATE_KHR ∧ e.present_result ≠ VK_SUBOPTIMAL_KHR ∧
      e.framebuffer_resized = true) ∧
      loop_body st e =
        ([Event.should_close false, Event.poll_events,
          Event.acquire_next_image st.current_frame e.acquire_result e.acquire_image,
          Event.reset_fence st.current_frame,
          Event.begin_record st.current_frame,
          Event.begin_render_pass st.current_frame e.acquire_image,
          Event.vkCmdDraw st.current_frame,
          Event.end_render_pass st.current_frame,
          Event.end_record st.current_frame,
          Event.submit_frame st.current_frame e.submit_result,
          Event.present_frame st.current_frame e.acquire_image e.present_result,
          Event.get_framebuffer_resized true,
          Event.recreate_swapchain],
         Flow.next ⟨Int.tmod (st.current_frame + 1) FRAMES_IN_FLIGHT, e.acquire_image⟩)) ∨
    ((e.should_close = false ∧
      (e.acquire_result = VK_SUCCESS ∨ e.acquire_result = VK_SUBOPTIMAL_KHR) ∧
      e.submit_result = VK_SUCCESS ∧
      e.present_result ≠ VK_ERROR_OUT_OF_DATE_KHR ∧ e.present_result ≠ VK_SUBOPTIMAL_KHR ∧
      e.framebuffer_resized = false ∧ e.present_result ≠ VK_SUCCESS) ∧
      loop_body st e =
        ([Event.should_close false, Event.poll_events,
          Event.acquire_next_image st.current_frame e.acquire_result e.acquire_image,
          Event.reset_fence st.current_frame,
          Event.begin_record st.current_frame,
          Event.begin_render_pass st.current_frame e.acquire_image,
          Event.vkCmdDraw st.current_frame,
          Event.end_render_pass st.current_frame,
          Event.end_record st.current_frame,
          Event.submit_frame st.current_frame e.submit_result,
          Event.present_frame st.current_frame e.acquire_image e.present_result,
          Event.get_framebuffer_resized false,
          Event.quix_error ("failed to present swapchain image")],
         Flow.exit_failure)) ∨
    ((e.should_close = false ∧
      (e.acquire_result = VK_SUCCESS ∨ e.acquire_result = VK_SUBOPTIMAL_KHR) ∧
      e.submit_result = VK_SUCCESS ∧
      e.present_result = VK_SUCCESS ∧ e.framebuffer_resized = false) ∧
      loop_body st e =
        ([Event.should_close false, Event.poll_events,
          Event.acquire_next_image st.current_frame e.acquire_result e.acquire_image,
          Event.reset_fence st.current_frame,
          Event.begin_record st.current_frame,
          Event.begin_render_pass st.current_frame e.acquire_image,
          Event.vkCmdDraw st.current_frame,
          Event.end_render_pass st.current_frame,
          Event.end_record st.current_frame,
          Event.submit_frame st.current_frame e.submit_result,
          Event.present_frame st.current_frame e.acquire_image e.present_result,
          Event.get_framebuffer_resized false],
         Flow.next ⟨Int.tmod (st.current_frame + 1) FRAMES_IN_FLIGHT, e.acquire_image⟩)) := by
  have hd := status_codes_distinct
  cases hc : e.should_close
  · by_cases h1 : e.acquire_result = VK_ERROR_OUT_OF_DATE_KHR
    · simp [loop_body, hc, h1]
    · by_cases h2 : e.acquire_result = VK_SUCCESS ∨ e.acquire_result = VK_SUBOPTIMAL_KHR
      · have h2n : ¬ (e.acquire_result ≠ VK_SUCCESS ∧ e.acquire_result ≠ VK_SUBOPTIMAL_KHR) := by
          tauto
        by_cases h3 : e.submit_result = VK_SUCCESS
        · by_cases h4 : e.present_result = VK_ERROR_OUT_OF_DATE_KHR ∨
              e.present_result = VK_SUBOPTIMAL_KHR
          · simp [loop_body, present_and_rotate, record_and_submit, hc, h1, h2, h2n, h3, h4]
          · have h4a : e.present_result ≠ VK_ERROR_OUT_OF_DATE_KHR := fun h => h4 (Or.inl h)
            have h4b : e.present_result ≠ VK_SUBOPTIMAL_KHR := fun h => h4 (Or.inr h)
            cases hr : e.framebuffer_resized
            · by_cases h5 : e.present_result = VK_SUCCESS
              · have h6 : ¬ (VK_SUCCESS = VK_ERROR_OUT_OF_DATE_KHR ∨ VK_SUCCESS = VK_SUBOPTIMAL_KHR) := by
                  rw [← h5]; exact h4
                simp [loop_body, present_and_rotate, record_and_submit, hc, h1, h2, h2n, h3, hr, h5, h6]
              · simp [loop_body, present_and_rotate, record_and_submit, hc, h1, h2, h2n, h3, h4,
                  h4a, h4b, hr, h5]
            · simp [loop_body, present_and_rotate, record_and_submit, hc, h1, h2, h2n, h3, h4,
                h4a, h4b, hr]
        · simp [loop_body, record_and_submit, hc, h1, h2, h2n, h3]
      · have h2n : e.acquire_result ≠ VK_SUCCESS ∧ e.acquire_result ≠ VK_SUBOPTIMAL_KHR := by
          tauto
        simp [loop_body, hc, h1, h2n]
  · simp [loop_body, hc]

/-- For a slot in range the C remainder of line 170 is the mathematical one, and the
rotated slot is in range again. -/
theorem rotate_in_range (f : Int) (h0 : 0 ≤ f) (h1 : f < FRAMES_IN_FLIGHT) :
    Int.tmod (f + 1) FRAMES_IN_FLIGHT = (f + 1) % FRAMES_IN_FLIGHT ∧
    0 ≤ Int.tmod (f + 1) FRAMES_IN_FLIGHT ∧
    Int.tmod (f + 1) FRAMES_IN_FLIGHT < FRAMES_IN_FLIGHT := by
  have h2 : f = 0 ∨ f = 1 := by
    unfold FRAMES_IN_FLIGHT at h1
    omega
  rcases h2 with h | h <;> subst h <;> decide

/-- The locals a pass starts with. -/
@[simp]
theorem pass_of_before (st : LoopState) (e : Env) : (pass_of st e).before = st := rfl

/-- The answers a pass receives. -/
@[simp]
theorem pass_of_env (st : LoopState) (e : Env) : (pass_of st e).env = e := rfl

/-- The calls of a pass are those of the loop body. -/
@[simp]
theorem pass_of_events (st : LoopState) (e : Env) :
    (pass_of st e).events = (loop_body st e).1 := rfl

/-- The end of a pass is that of the loop body. -/
@[simp]
theorem pass_of_flow (st : LoopState) (e : Env) :
    (pass_of st e).flow = (loop_body st e).2 := rfl

/-- Unfolding of `passes` on a non-empty list of answers. -/
theorem passes_cons (st : LoopState) (e : Env) (es : List Env) :
    passes st (e :: es) =
      pass_of st e ::
        (match (loop_body st e).2 with
         | Flow.next st1 => passes st1 es
         | Flow.leave => []
         | Flow.exit_failure => []) := rfl

/-- Unfolding of `loop_trace` on a non-empty list of answers. -/
theorem loop_trace_cons (st : LoopState) (e : Env) (es : List Env) :
    loop_trace st (e :: es) =
      (loop_body st e).1 ++
        (match (loop_body st e).2 with
         | Flow.next st1 => loop_trace st1 es
         | Flow.leave => [Event.wait_idle]
         | Flow.exit_failure => []) := rfl

/-- Every executed pass is the loop body run on its own locals and answers. -/
theorem passes_mem (envs : List Env) :
    ∀ (st : LoopState) (p : Pass), p ∈ passes st envs →
      p.events = (loop_body p.before p.env).1 ∧ p.flow = (loop_body p.before p.env).2 := by
  induction envs with
  | nil => intro st p h; simp [passes] at h
  | cons e es ih =>
    intro st p h
    rw [passes_cons] at h
    rcases List.mem_cons.mp h with h | h
    · subst h; exact ⟨rfl, rfl⟩
    · cases hf : (loop_body st e).2 with
      | next st1 => rw [hf] at h; exact ih st1 p h
      | leave => rw [hf] at h; simp at h
      | exit_failure => rw [hf] at h; simp at h

/-- One pass keeps the slot in `[0, FRAMES_IN_FLIGHT)`. -/
theorem loop_body_in_range (st st1 : LoopState) (e : Env)
    (h0 : 0 ≤ st.current_frame) (h1 : st.current_frame < FRAMES_IN_FLIGHT)
    (h : (loop_body st e).2 = Flow.next st1) :
    0 ≤ st1.current_frame ∧ st1.current_frame < FRAMES_IN_FLIGHT := by
  have hr := rotate_in_range st.current_frame h0 h1
  rcases loop_body_cases st e with ⟨-, c⟩ | ⟨-, c⟩ | ⟨-, c⟩ | ⟨-, c⟩ | ⟨-, c⟩ | ⟨-, c⟩ |
    ⟨-, c⟩ | ⟨-, c⟩ <;> rw [c] at h <;> simp at h <;> subst h <;> simp <;> tauto

/-- Started with a slot in range, every executed pass starts with a slot in range. -/
theorem passes_in_range (envs : List Env) :
    ∀ (st : LoopState) (p : Pass),
      0 ≤ st.current_frame → st.current_frame < FRAMES_IN_FLIGHT → p ∈ passes st envs →
      0 ≤ p.before.current_frame ∧ p.before.current_frame < FRAMES_IN_FLIGHT := by
  induction envs with
  | nil => intro st p _ _ h; simp [passes] at h
  | cons e es ih =>
    intro st p h0 h1 h
    rw [passes_cons] at h
    rcases List.mem_cons.mp h with h | h
    · subst h; exact ⟨h0, h1⟩
    · cases hf : (loop_body st e).2 with
      | next st1 =>
        rw [hf] at h
        have hr := loop_body_in_range st st1 e h0 h1 hf
        exact ih st1 p hr.1 hr.2 h
      | leave => rw [hf] at h; simp at h
      | exit_failure => rw [hf] at h; simp at h

/-- Every pass of `main` starts with a slot in range. -/
theorem main_passes_in_range (envs : List Env) (p : Pass) (h : p ∈ main_passes envs) :
    0 ≤ p.before.current_frame ∧ p.before.current_frame < FRAMES_IN_FLIGHT :=
  passes_in_range envs initial p (by decide) (by decide) h

/-- A pass that is followed by another one ended with the locals the next one
starts with. -/
theorem passes_succ (envs : List Env) :
    ∀ (st : LoopState) (i : Nat) (p q : Pass),
      (passes st envs)[i]? = some p → (passes st envs)[i + 1]? = some q →
      p.flow = Flow.next q.before := by
  induction envs with
  | nil => intro st i p q h; simp [passes] at h
  | cons e es ih =>
    intro st i p q hp hq
    rw [passes_cons] at hp hq
    cases hf : (loop_body st e).2 with
    | next st1 =>
      rw [hf] at hp hq
      cases i with
      | zero =>
        simp at hp
        subst hp
        simp at hq
        cases es with
        | nil => simp [passes] at hq
        | cons e2 es2 =>
          rw [passes_cons] at hq
          simp at hq
          subst hq
          exact hf
      | succ k =>
        simp at hp hq
        exact ih st1 k p q hp hq
    | leave => rw [hf] at hq; simp at hq
    | exit_failure => rw [hf] at hq; simp at hq

/-- A pass that does not reach the loop condition again is the last one. -/
theorem passes_stop (envs : List Env) :
    ∀ (st : LoopState) (i : Nat) (p : Pass),
      (passes st envs)[i]? = some p → (∀ st1, p.flow ≠ Flow.next st1) →
      (passes st envs).length = i + 1 := by
  induction envs with
  | nil => intro st i p h; simp [passes] at h
  | cons e es ih =>
    intro st i p hp hn
    rw [passes_cons] at hp ⊢
    cases i with
    | zero =>
      simp at hp
      subst hp
      cases hf : (loop_body st e).2 with
      | next st1 => exact absurd hf (hn st1)
      | leave => simp
      | exit_failure => simp
    | succ k =>
      cases hf : (loop_body st e).2 with
      | next st1 =>
        rw [hf] at hp
        simp at hp
        simp [ih st1 k p hp hn]
      | leave => rw [hf] at hp; simp at hp
      | exit_failure => rw [hf] at hp; simp at hp

/-- A status that lets the frame proceed is not out-of-date. -/
theorem ok_ne_out_of_date (r : VkResult) (h : r = VK_SUCCESS ∨ r = VK_SUBOPTIMAL_KHR) :
    r ≠ VK_ERROR_OUT_OF_DATE_KHR := by
  rcases h with h | h <;> subst h <;> decide

/-- The abandoned-frame rule holds on every sequence of calls of the loop, from any
locals, when the scan starts between two frames. -/
theorem abandoned_frames_ok_loop_trace (envs : List Env) :
    ∀ (st : LoopState) (pending : Option Nat), pending = none ∨ pending = some 1 →
      abandoned_frames_ok pending (loop_trace st envs) = true := by
  induction envs with
  | nil => intro st pending h; simpa [loop_trace, abandoned_frames_ok] using h
  | cons e es ih =>
    intro st pending h
    rw [loop_trace_cons]
    rcases loop_body_cases st e with ⟨c, q⟩ | ⟨c, q⟩ | ⟨c, q⟩ | ⟨c, q⟩ | ⟨c, q⟩ | ⟨c, q⟩ |
      ⟨c, q⟩ | ⟨c, q⟩ <;> rw [q]
    · rcases h with h | h <;> subst h <;> simp [abandoned_frames_ok, Event.uses_frame]
    · rcases h with h | h <;> subst h <;> simp [abandoned_frames_ok, Event.uses_frame, c.2] <;>
        exact ih _ _ (Or.inr rfl)
    · rcases h with h | h <;> subst h <;> simp [abandoned_frames_ok, Event.uses_frame, c.2.1]
    all_goals
      have hne := ok_ne_out_of_date e.acquire_result c.2.1
      rcases h with h | h <;> subst h <;> simp [abandoned_frames_ok, Event.uses_frame, hne] <;>
        exact ih _ _ (Or.inl rfl)

/-- The sequence of calls of the loop is the concatenation of the calls of its
passes, followed by `wait_idle` when the last pass left the loop. -/
theorem loop_trace_eq_passes (envs : List Env) :
    ∀ st : LoopState, loop_trace st envs =
      ((passes st envs).map Pass.events).flatten ++
        (if ((passes st envs).getLast?.map Pass.flow) = some Flow.leave then [Event.wait_idle]
         else []) := by
  induction envs with
  | nil => intro st; simp [loop_trace, passes]
  | cons e es ih =>
    intro st
    rw [loop_trace_cons, passes_cons]
    cases hf : (loop_body st e).2 with
    | next st1 =>
      cases es with
      | nil => simp [loop_trace, passes, hf]
      | cons e2 es2 =>
        simp only [ih st1]
        obtain ⟨p2, rest, hp2⟩ : ∃ p2 rest, passes st1 (e2 :: es2) = p2 :: rest :=
          ⟨_, _, passes_cons st1 e2 es2⟩
        simp [hp2, List.getLast?_cons_cons]
    | leave => simp [hf]
    | exit_failure => simp [hf]

/-- When the window is open, the acquire lets the frame proceed and the submit
succeeds, the pass is the recording calls followed by lines 163-170. -/
theorem loop_body_reaches_present (st : LoopState) (e : Env) (hc : e.should_close = false)
    (ha : e.acquire_result = VK_SUCCESS ∨ e.acquire_result = VK_SUBOPTIMAL_KHR)
    (hs : e.submit_result = VK_SUCCESS) :
    loop_body st e =
      ([Event.should_close false, Event.poll_events,
          Event.acquire_next_image st.current_frame e.acquire_result e.acquire_image] ++
        record_and_submit st.current_frame e.acquire_image e.submit_result ++
        (present_and_rotate st.current_frame e.acquire_image e).1,
       (present_and_rotate st.current_frame e.acquire_image e).2) := by
  have h1 := ok_ne_out_of_date e.acquire_result ha
  have h2 : ¬ (e.acquire_result ≠ VK_SUCCESS ∧ e.acquire_result ≠ VK_SUBOPTIMAL_KHR) := by tauto
  simp [loop_body, hc, h1, h2, hs]

/-- What lines 163-170 do: `present_frame` comes first, no acquire follows, and
recreation follows exactly on out-of-date, suboptimal or resize. -/
theorem present_and_rotate_spec (f : Int) (img : Nat) (e : Env) :
    ∃ post, (present_and_rotate f img e).1 = Event.present_frame f img e.present_result :: post ∧
      (∀ s res i, Event.acquire_next_image s res i ∉ post) ∧
      (Event.recreate_swapchain ∈ post ↔
        (e.present_result = VK_ERROR_OUT_OF_DATE_KHR ∨ e.present_result = VK_SUBOPTIMAL_KHR ∨
          e.framebuffer_resized = true)) ∧
      (e.present_result = VK_SUCCESS → e.framebuffer_resized = false →
        (present_and_rotate f img e).2 =
          Flow.next ⟨Int.tmod (f + 1) FRAMES_IN_FLIGHT, img⟩) := by
  have hd := status_codes_distinct
  unfold present_and_rotate
  by_cases h1 : e.present_result = VK_ERROR_OUT_OF_DATE_KHR ∨ e.present_result = VK_SUBOPTIMAL_KHR
  · refine ⟨[Event.recreate_swapchain], by simp [h1], by simp, ?_, ?_⟩
    · simp; tauto
    · intro h2 _
      rw [h2] at h1
      rcases h1 with h | h
      · exact absurd h hd.2.1
      · exact absurd h hd.1
  · cases hr : e.framebuffer_resized
    · by_cases h2 : e.present_result = VK_SUCCESS
      · have h6 : ¬ (VK_SUCCESS = VK_ERROR_OUT_OF_DATE_KHR ∨ VK_SUCCESS = VK_SUBOPTIMAL_KHR) := by
          rw [← h2]; exact h1
        refine ⟨[Event.get_framebuffer_resized false], by simp [h2, h6], by simp, ?_, ?_⟩
        · simp; tauto
        · intro _ _; simp [h2, h6]
      · refine ⟨[Event.get_framebuffer_resized false,
          Event.quix_error ("failed to present swapchain image")], by simp [h1, hr, h2], by simp,
          ?_, ?_⟩
        · simp; tauto
        · intro h3; exact absurd h3 h2
    · refine ⟨[Event.get_framebuffer_resized true, Event.recreate_swapchain], by simp [h1, hr],
        by simp, ?_, ?_⟩
      · simp
      · intro _ h3; simp at h3


/-- A `present_frame` call in a pass carries the current slot, the acquired image
and the status the pass reads, and is reached only after a successful submit. -/
theorem present_mem (st : LoopState) (e : Env) (slot : Int) (img : Nat) (r : VkResult)
    (h : Event.present_frame slot img r ∈ (loop_body st e).1) :
    slot = st.current_frame ∧ img = e.acquire_image ∧ r = e.present_result ∧
    e.should_close = false ∧
    (e.acquire_result = VK_SUCCESS ∨ e.acquire_result = VK_SUBOPTIMAL_KHR) ∧
    e.submit_result = VK_SUCCESS := by
  rcases loop_body_cases st e with ⟨c, q⟩ | ⟨c, q⟩ | ⟨c, q⟩ | ⟨c, q⟩ | ⟨c, q⟩ | ⟨c, q⟩ |
    ⟨c, q⟩ | ⟨c, q⟩ <;> rw [q] at h <;> simp at h <;>
    exact ⟨h.1, h.2.1, h.2.2, c.1, c.2.1, c.2.2.1⟩

/-- A pass in which every call succeeds rotates the slot and makes nine calls with
the current slot. -/
theorem loop_body_successful (st : LoopState) (e : Env)
    (hok : e.should_close = false ∧ e.acquire_result = VK_SUCCESS ∧
      e.submit_result = VK_SUCCESS ∧ e.present_result = VK_SUCCESS) :
    (loop_body st e).2 =
      Flow.next ⟨Int.tmod (st.current_frame + 1) FRAMES_IN_FLIGHT, e.acquire_image⟩ ∧
    (loop_body st e).1.filterMap Event.slot? = List.replicate 9 st.current_frame := by
  obtain ⟨h1, h2, h3, h4⟩ := hok
  have hd := status_codes_distinct
  rcases loop_body_cases st e with ⟨c, q⟩ | ⟨c, q⟩ | ⟨c, q⟩ | ⟨c, q⟩ | ⟨c, q⟩ |
    ⟨c, q⟩ | ⟨c, q⟩ | ⟨c, q⟩
  · rw [h1] at c; simp at c
  · rw [h2] at c; exact absurd c.2 hd.2.1
  · exact absurd h2 c.2.2.1
  · exact absurd h3 c.2.2
  · rw [h4] at c
    rcases c.2.2.2 with h | h
    · exact absurd h hd.2.1
    · exact absurd h hd.1
  · rw [q]; simp [Event.slot?, List.replicate]
  · exact absurd h4 c.2.2.2.2.2.2
  · rw [q]; simp [Event.slot?, List.replicate]

/-- In every sequence of calls of the loop, from any locals and any phase,
recreation happens only after a present or an out-of-date acquire. -/
theorem recreate_only_in_loop_trace (envs : List Env) :
    ∀ (st : LoopState) (ph : Phase),
      recreate_only_in after_present_or_out_of_date ph (loop_trace st envs) = true := by
  induction envs with
  | nil => intro st ph; simp [loop_trace, recreate_only_in]
  | cons e es ih =>
    intro st ph
    rw [loop_trace_cons]
    rcases loop_body_cases st e with ⟨c, q⟩ | ⟨c, q⟩ | ⟨c, q⟩ | ⟨c, q⟩ | ⟨c, q⟩ | ⟨c, q⟩ |
      ⟨c, q⟩ | ⟨c, q⟩ <;> rw [q]
    · simp [recreate_only_in]
    · simp [recreate_only_in, after_present_or_out_of_date, c.2]
      exact ih _ _
    · simp [recreate_only_in]
    · simp [recreate_only_in]
    · simp [recreate_only_in, after_present_or_out_of_date]
      exact ih _ _
    · simp [recreate_only_in, after_present_or_out_of_date]
      exact ih _ _
    · simp [recreate_only_in]
    · simp [recreate_only_in]
      exact ih _ _

/-- A member call other than `create_device` leaves `m_descriptor_layout_cache` as
it was. -/
theorem after_keeps_layout_cache (self : Instance) (c : Call) (h : c.is_create_device = false) :
    (self.after c).m_descriptor_layout_cache = self.m_descriptor_layout_cache := by
  cases c <;> first | rfl | simp [Call.is_create_device] at h

/-- A sequence of member calls without `create_device` leaves
`m_descriptor_layout_cache` as it was. -/
theorem after_all_keeps_layout_cache (calls : List Call) :
    ∀ self : Instance, (∀ c ∈ calls, c.is_create_device = false) →
      (self.after_all calls).m_descriptor_layout_cache = self.m_descriptor_layout_cache := by
  induction calls with
  | nil => intro self _; rfl
  | cons c cs ih =>
    intro self h
    have h1 := after_keeps_layout_cache self c (h c (List.mem_cons_self _ _))
    have h2 := ih (self.after c) (fun d hd => h d (List.mem_cons_of_mem _ hd))
    unfold Instance.after_all at h2 ⊢
    rw [List.foldl_cons, h2, h1]


/-- A pass that starts with the window open calls `acquire_next_image` with the
current slot. -/
theorem acquire_mem (st : LoopState) (e : Env) (h : e.should_close = false) :
    Event.acquire_next_image st.current_frame e.acquire_result e.acquire_image ∈
      (loop_body st e).1 := by
  rcases loop_body_cases st e with ⟨c, q⟩ | ⟨c, q⟩ | ⟨c, q⟩ | ⟨c, q⟩ | ⟨c, q⟩ | ⟨c, q⟩ |
    ⟨c, q⟩ | ⟨c, q⟩
  · rw [h] at c; simp at c
  all_goals rw [q]; simp

/-- Every slot argument in a pass is the current slot. -/
theorem slot_mem (st : LoopState) (e : Env) :
    ∀ ev ∈ (loop_body st e).1, ∀ s, ev.slot? = some s → s = st.current_frame := by
  rcases loop_body_cases st e with ⟨c, q⟩ | ⟨c, q⟩ | ⟨c, q⟩ | ⟨c, q⟩ | ⟨c, q⟩ | ⟨c, q⟩ |
    ⟨c, q⟩ | ⟨c, q⟩ <;> rw [q] <;> simp [Event.slot?]

/-- In every sequence of calls of the loop, from any locals and any phase, the
placement of recreation within frames is respected. -/
theorem recreation_between_frames_loop_trace (envs : List Env) :
    ∀ (st : LoopState) (ph : FramePhase),
      recreation_between_frames ph (loop_trace st envs) = true := by
  induction envs with
  | nil => intro st ph; simp [loop_trace, recreation_between_frames]
  | cons e es ih =>
    intro st ph
    rw [loop_trace_cons]
    rcases loop_body_cases st e with ⟨c, q⟩ | ⟨c, q⟩ | ⟨c, q⟩ | ⟨c, q⟩ | ⟨c, q⟩ | ⟨c, q⟩ |
      ⟨c, q⟩ | ⟨c, q⟩ <;> rw [q]
    · simp [recreation_between_frames, Event.uses_frame]
    · simp [recreation_between_frames, Event.uses_frame, c.2]
      exact ih _ _
    · simp [recreation_between_frames, Event.uses_frame, c.2.1]
    all_goals
      have hne := ok_ne_out_of_date e.acquire_result c.2.1
      simp [recreation_between_frames, Event.uses_frame, hne]
      try exact ih _ _

/-! ## The claims -/

/-- Claim C1.  In every pass of the main loop in which `acquire_next_image` returns
`VK_ERROR_OUT_OF_DATE_KHR`, the calls made are exactly `should_close`,
`poll_events`, `acquire_next_image` and one `recreate_swapchain`: the pass
contains no fence reset, no recording call, no `submit_frame` and no
`present_frame`, and it ends in `continue`.  Over the whole sequence of calls of
`main`, every out-of-date acquire is followed, before the next
`acquire_next_image`, by exactly one `recreate_swapchain` and by no call that
works on a frame, so no submit or present receives the image index such an
acquire left behind. -/
theorem acquire_out_of_date_abandons_frame (envs : List Env) (p : Pass)
    (hp : p ∈ main_passes envs) (hopen : p.env.should_close = false)
    (hood : p.env.acquire_result = VK_ERROR_OUT_OF_DATE_KHR) :
    p.events =
      [Event.should_close false, Event.poll_events,
        Event.acquire_next_image p.before.current_frame VK_ERROR_OUT_OF_DATE_KHR
          p.env.acquire_image,
        Event.recreate_swapchain] ∧
    p.events.count Event.recreate_swapchain = 1 ∧
    (∀ ev ∈ p.events, ev.uses_frame = false) ∧
    p.flow = Flow.next ⟨p.before.current_frame, p.env.acquire_image⟩ ∧
    abandoned_frames_ok none (main_trace envs) = true := by
  have hm := passes_mem envs initial p hp
  have hev : p.events =
      [Event.should_close false, Event.poll_events,
        Event.acquire_next_image p.before.current_frame VK_ERROR_OUT_OF_DATE_KHR
          p.env.acquire_image,
        Event.recreate_swapchain] ∧
      p.flow = Flow.next ⟨p.before.current_frame, p.env.acquire_image⟩ := by
    rcases loop_body_cases p.before p.env with ⟨c, q⟩ | ⟨c, q⟩ | ⟨c, q⟩ | ⟨c, q⟩ | ⟨c, q⟩ |
      ⟨c, q⟩ | ⟨c, q⟩ | ⟨c, q⟩
    · rw [hopen] at c; simp at c
    · rw [hm.1, hm.2, q, hood]; exact ⟨rfl, rfl⟩
    · exact absurd hood c.2.1
    all_goals exact absurd hood (ok_ne_out_of_date _ c.2.1)
  refine ⟨hev.1, ?_, ?_, hev.2, abandoned_frames_ok_loop_trace envs initial none (Or.inl rfl)⟩
  · rw [hev.1]; simp
  · rw [hev.1]; simp [Event.uses_frame]

/-- Scenario B for claim C1: in the three-pass run whose second acquire returns
out-of-date, the second pass recreates once and uses no frame, the whole run
recreates once, and the first and third passes record, submit and present. -/
theorem acquire_out_of_date_abandons_frame_witness :
    pass_of ⟨1, 0⟩ (env_acquire_out_of_date 1) ∈ main_passes scenario_B ∧
    (pass_of ⟨1, 0⟩ (env_acquire_out_of_date 1)).events.count Event.recreate_swapchain = 1 ∧
    (∀ ev ∈ (pass_of ⟨1, 0⟩ (env_acquire_out_of_date 1)).events, ev.uses_frame = false) ∧
    abandoned_frames_ok none (main_trace scenario_B) = true ∧
    (main_trace scenario_B).count Event.recreate_swapchain = 1 ∧
    (main_passes scenario_B).map (fun p => p.events.any Event.uses_frame) = [true, false, true] :=
  have h := acquire_out_of_date_abandons_frame scenario_B
    (pass_of ⟨1, 0⟩ (env_acquire_out_of_date 1)) (by decide) rfl rfl
  ⟨by decide, h.2.1, h.2.2.1, h.2.2.2.2, by decide, by decide⟩

/-- Claim C2 as stated fails.  When `present_frame` returns `VK_ERROR_DEVICE_LOST`
and the window reports no resize, the last call of the run is `quix_error`: the
process ends in the pass of the `present_frame` call, no further pass is
executed, and the slot never becomes 1. -/
theorem present_error_ends_without_rotation :
    main_trace [env_present_device_lost 0 false, env_success 1] =
      [Event.should_close false, Event.poll_events,
        Event.acquire_next_image 0 VK_SUCCESS 0,
        Event.reset_fence 0, Event.begin_record 0, Event.begin_render_pass 0 0,
        Event.vkCmdDraw 0, Event.end_render_pass 0, Event.end_record 0,
        Event.submit_frame 0 VK_SUCCESS,
        Event.present_frame 0 0 VK_ERROR_DEVICE_LOST,
        Event.get_framebuffer_resized false,
        Event.quix_error ("failed to present swapchain image")] ∧
    (main_passes [env_present_device_lost 0 false, env_success 1]).map
      (fun p => (p.before.current_frame, p.flow)) = [(0, Flow.exit_failure)] := by
  decide

/-- Claim C2, amended.  In a pass of the main loop that calls `present_frame`, the
call is made with the current slot, and whenever the process is not ended in
that pass the next slot is `(slot + 1) mod FRAMES_IN_FLIGHT`; this is so for
each of the statuses `VK_SUCCESS`, `VK_SUBOPTIMAL_KHR` and
`VK_ERROR_OUT_OF_DATE_KHR`, and whenever `recreate_swapchain` was called in the
pass, so recreation does not reset the slot.  A status other than these three
with no resize reported ends the process: the last call of the pass is
`quix_error`, the pass leaves no next slot, and it is the last pass executed. -/
theorem slot_rotates_after_present (envs : List Env) (p : Pass) (slot : Int) (img : Nat)
    (r : VkResult) (hp : p ∈ main_passes envs)
    (hpres : Event.present_frame slot img r ∈ p.events) :
    slot = p.before.current_frame ∧
    (p.flow ≠ Flow.exit_failure →
      p.flow = Flow.next ⟨(slot + 1) % FRAMES_IN_FLIGHT, img⟩) ∧
    (r = VK_SUCCESS ∨ r = VK_SUBOPTIMAL_KHR ∨ r = VK_ERROR_OUT_OF_DATE_KHR →
      p.flow = Flow.next ⟨(slot + 1) % FRAMES_IN_FLIGHT, img⟩) ∧
    (Event.recreate_swapchain ∈ p.events →
      p.flow = Flow.next ⟨(slot + 1) % FRAMES_IN_FLIGHT, img⟩) ∧
    (r ≠ VK_SUCCESS → r ≠ VK_SUBOPTIMAL_KHR → r ≠ VK_ERROR_OUT_OF_DATE_KHR →
      p.env.framebuffer_resized = false →
      p.flow = Flow.exit_failure ∧
      p.events.getLast? = some (Event.quix_error ("failed to present swapchain image")) ∧
      (∀ st, p.flow ≠ Flow.next st) ∧
      (∀ i, (main_passes envs)[i]? = some p → (main_passes envs).length = i + 1)) := by
  have hm := passes_mem envs initial p hp
  have hr := main_passes_in_range envs p hp
  have hrot := (rotate_in_range p.before.current_frame hr.1 hr.2).1
  rw [hm.1] at hpres
  obtain ⟨hs, hi, hres, hopen, hacq, hsub⟩ := present_mem p.before p.env slot img r hpres
  subst hs hi hres
  refine ⟨rfl, ?_, ?_, ?_, ?_⟩
  · rw [hm.2, ← hrot]
    rcases loop_body_cases p.before p.env with ⟨c, q⟩ | ⟨c, q⟩ | ⟨c, q⟩ | ⟨c, q⟩ | ⟨c, q⟩ |
      ⟨c, q⟩ | ⟨c, q⟩ | ⟨c, q⟩ <;> rw [q] at hpres ⊢ <;> simp at hpres <;> simp
  · rw [hm.2, ← hrot]
    rcases loop_body_cases p.before p.env with ⟨c, q⟩ | ⟨c, q⟩ | ⟨c, q⟩ | ⟨c, q⟩ | ⟨c, q⟩ |
      ⟨c, q⟩ | ⟨c, q⟩ | ⟨c, q⟩ <;> rw [q] at hpres ⊢ <;> simp at hpres
    · simp
    · simp
    · have h1 := c.2.2.2.1
      have h2 := c.2.2.2.2.1
      have h3 := c.2.2.2.2.2.2
      simp
      tauto
    · simp
  · rw [hm.1, hm.2, ← hrot]
    rcases loop_body_cases p.before p.env with ⟨c, q⟩ | ⟨c, q⟩ | ⟨c, q⟩ | ⟨c, q⟩ | ⟨c, q⟩ |
      ⟨c, q⟩ | ⟨c, q⟩ | ⟨c, q⟩ <;> rw [q] at hpres ⊢ <;> simp at hpres <;> simp
  · intro h1 h2 h3 h4
    have hf : p.flow = Flow.exit_failure ∧
        p.events.getLast? = some (Event.quix_error ("failed to present swapchain image")) := by
      rw [hm.1, hm.2, loop_body_reaches_present p.before p.env hopen hacq hsub]
      simp [present_and_rotate, record_and_submit, h1, h2, h3, h4]
    refine ⟨hf.1, hf.2, ?_, ?_⟩
    · intro st hst
      rw [hf.1] at hst
      simp at hst
    · intro i hi
      exact passes_stop envs initial i p hi (fun st1 hst => by rw [hf.1] at hst; simp at hst)

/-- A pass on slot 1 whose `present_frame` returns out-of-date: the swapchain is
recreated and the slot rotates to `(1 + 1) mod 2`, not to a reset value. -/
theorem slot_rotates_after_present_witness :
    pass_of ⟨1, 0⟩ ⟨false, VK_SUCCESS, 3, VK_SUCCESS, VK_ERROR_OUT_OF_DATE_KHR, false⟩ ∈
      main_passes [env_success 0,
        ⟨false, VK_SUCCESS, 3, VK_SUCCESS, VK_ERROR_OUT_OF_DATE_KHR, false⟩] ∧
    Event.present_frame 1 3 VK_ERROR_OUT_OF_DATE_KHR ∈
      (pass_of ⟨1, 0⟩
        ⟨false, VK_SUCCESS, 3, VK_SUCCESS, VK_ERROR_OUT_OF_DATE_KHR, false⟩).events ∧
    Event.recreate_swapchain ∈
      (pass_of ⟨1, 0⟩
        ⟨false, VK_SUCCESS, 3, VK_SUCCESS, VK_ERROR_OUT_OF_DATE_KHR, false⟩).events ∧
    (pass_of ⟨1, 0⟩
      ⟨false, VK_SUCCESS, 3, VK_SUCCESS, VK_ERROR_OUT_OF_DATE_KHR, false⟩).flow =
      Flow.next ⟨(1 + 1) % FRAMES_IN_FLIGHT, 3⟩ :=
  ⟨by decide, by decide, by decide,
    (slot_rotates_after_present
      [env_success 0, ⟨false, VK_SUCCESS, 3, VK_SUCCESS, VK_ERROR_OUT_OF_DATE_KHR, false⟩]
      (pass_of ⟨1, 0⟩ ⟨false, VK_SUCCESS, 3, VK_SUCCESS, VK_ERROR_OUT_OF_DATE_KHR, false⟩)
      1 3 VK_ERROR_OUT_OF_DATE_KHR (by decide) (by decide)).2.2.1 (Or.inr (Or.inr rfl))⟩

/-- Claim C3.  Starting from a slot `s` in `[0, FRAMES_IN_FLIGHT)`, when every call
of every pass returns `VK_SUCCESS`, the `k`-th pass (counted from 0) is executed,
starts with slot `(s + k) mod FRAMES_IN_FLIGHT`, makes each of its nine
slot-taking calls with that slot, and leaves slot
`(s + k + 1) mod FRAMES_IN_FLIGHT`; the pass number `FRAMES_IN_FLIGHT - 1`
therefore leaves slot `s` again.  In scenario A (three successful passes from
slot 0 on a window that is not resized) the slots are 0, 1, 0. -/
theorem slot_sequence_of_successful_cycles (s : Int) (img0 : Nat) (envs : List Env)
    (hs0 : 0 ≤ s) (hs1 : s < FRAMES_IN_FLIGHT)
    (hok : ∀ e ∈ envs, e.should_close = false ∧ e.acquire_result = VK_SUCCESS ∧
      e.submit_result = VK_SUCCESS ∧ e.present_result = VK_SUCCESS) :
    (∀ (k : Nat) (e : Env), envs[k]? = some e →
      ∃ p, (passes ⟨s, img0⟩ envs)[k]? = some p ∧ p.env = e ∧
        p.before.current_frame = (s + k) % FRAMES_IN_FLIGHT ∧
        p.events.filterMap Event.slot? = List.replicate 9 ((s + k) % FRAMES_IN_FLIGHT) ∧
        p.flow = Flow.next ⟨(s + k + 1) % FRAMES_IN_FLIGHT, e.acquire_image⟩) ∧
    (∀ e, envs[FRAMES_IN_FLIGHT.toNat - 1]? = some e →
      ∃ p, (passes ⟨s, img0⟩ envs)[FRAMES_IN_FLIGHT.toNat - 1]? = some p ∧
        p.flow = Flow.next ⟨s, e.acquire_image⟩) ∧
    (main_passes scenario_A).map (fun p => p.before.current_frame) = [0, 1, 0] := by
  have key : ∀ (envs : List Env) (s : Int) (img0 : Nat), 0 ≤ s → s < FRAMES_IN_FLIGHT →
      (∀ e ∈ envs, e.should_close = false ∧ e.acquire_result = VK_SUCCESS ∧
        e.submit_result = VK_SUCCESS ∧ e.present_result = VK_SUCCESS) →
      ∀ (k : Nat) (e : Env), envs[k]? = some e →
        ∃ p, (passes ⟨s, img0⟩ envs)[k]? = some p ∧ p.env = e ∧
          p.before.current_frame = (s + k) % FRAMES_IN_FLIGHT ∧
          p.events.filterMap Event.slot? = List.replicate 9 ((s + k) % FRAMES_IN_FLIGHT) ∧
          p.flow = Flow.next ⟨(s + k + 1) % FRAMES_IN_FLIGHT, e.acquire_image⟩ := by
    intro envs
    induction envs with
    | nil => intro s img0 _ _ _ k e h; simp at h
    | cons e0 es ih =>
      intro s img0 hs0 hs1 hok k e hk
      have h0 := loop_body_successful ⟨s, img0⟩ e0 (hok e0 (List.mem_cons_self _ _))
      have hr := rotate_in_range s hs0 hs1
      rw [passes_cons, h0.1]
      cases k with
      | zero =>
        simp at hk
        subst hk
        refine ⟨pass_of ⟨s, img0⟩ e0, by simp, rfl, ?_, ?_, ?_⟩
        · simp [FRAMES_IN_FLIGHT] at hs1 ⊢; omega
        · simp [h0.2]
          simp [FRAMES_IN_FLIGHT] at hs1 ⊢; omega
        · simp [h0.1, hr.1]
      | succ j =>
        simp at hk
        obtain ⟨p, hp1, hp2, hp3, hp4, hp5⟩ :=
          ih (Int.tmod (s + 1) FRAMES_IN_FLIGHT) e0.acquire_image hr.2.1 hr.2.2
            (fun e he => hok e (List.mem_cons_of_mem _ he)) j e hk
        have e1 : (Int.tmod (s + 1) FRAMES_IN_FLIGHT + (j : Int)) % FRAMES_IN_FLIGHT =
            (s + ((j + 1 : Nat) : Int)) % FRAMES_IN_FLIGHT := by
          rw [hr.1]; simp [FRAMES_IN_FLIGHT]; omega
        have e2 : (Int.tmod (s + 1) FRAMES_IN_FLIGHT + (j : Int) + 1) % FRAMES_IN_FLIGHT =
            (s + ((j + 1 : Nat) : Int) + 1) % FRAMES_IN_FLIGHT := by
          rw [hr.1]; simp [FRAMES_IN_FLIGHT]; omega
        refine ⟨p, by simpa using hp1, hp2, ?_, ?_, ?_⟩
        · rw [hp3, e1]
        · rw [hp4, e1]
        · rw [hp5, e2]
  refine ⟨key envs s img0 hs0 hs1 hok, ?_, by decide⟩
  intro e he
  obtain ⟨p, hp1, -, -, -, hp5⟩ := key envs s img0 hs0 hs1 hok _ e he
  refine ⟨p, hp1, ?_⟩
  rw [hp5]
  have : (s + ((FRAMES_IN_FLIGHT.toNat - 1 : Nat) : Int) + 1) % FRAMES_IN_FLIGHT = s := by
    simp [FRAMES_IN_FLIGHT] at hs1 ⊢; omega
  rw [this]

/-- Scenario A for claim C3: the third of three successful passes from slot 0 runs
on slot `(0 + 2) mod 2`. -/
theorem slot_sequence_of_successful_cycles_witness :
    (0 : Int) ≤ 0 ∧ (0 : Int) < FRAMES_IN_FLIGHT ∧
    (∀ e ∈ scenario_A, e.should_close = false ∧ e.acquire_result = VK_SUCCESS ∧
      e.submit_result = VK_SUCCESS ∧ e.present_result = VK_SUCCESS) ∧
    (∃ p, (passes ⟨0, 0⟩ scenario_A)[2]? = some p ∧ p.env = env_success 2 ∧
      p.before.current_frame = (0 + ((2 : Nat) : Int)) % FRAMES_IN_FLIGHT ∧
      p.events.filterMap Event.slot? =
        List.replicate 9 ((0 + ((2 : Nat) : Int)) % FRAMES_IN_FLIGHT) ∧
      p.flow = Flow.next
        ⟨(0 + ((2 : Nat) : Int) + 1) % FRAMES_IN_FLIGHT, (env_success 2).acquire_image⟩) :=
  ⟨by decide, by decide, by decide,
    (slot_sequence_of_successful_cycles 0 0 scenario_A (by decide) (by decide)
      (by decide)).1 2 (env_success 2) rfl⟩

/-- Claim C4 as stated fails.  Two passes in which `acquire_next_image` returns
`VK_SUBOPTIMAL_KHR`, every other call returns `VK_SUCCESS` and the window is not
resized: both frames are presented and `recreate_swapchain` is never called, in
particular not between the first acquire and the second. -/
theorem acquire_suboptimal_without_recreation :
    main_trace [env_acquire_suboptimal 0, env_acquire_suboptimal 1] =
      [Event.should_close false, Event.poll_events,
        Event.acquire_next_image 0 VK_SUBOPTIMAL_KHR 0,
        Event.reset_fence 0, Event.begin_record 0, Event.begin_render_pass 0 0,
        Event.vkCmdDraw 0, Event.end_render_pass 0, Event.end_record 0,
        Event.submit_frame 0 VK_SUCCESS,
        Event.present_frame 0 0 VK_SUCCESS, Event.get_framebuffer_resized false,
        Event.should_close false, Event.poll_events,
        Event.acquire_next_image 1 VK_SUBOPTIMAL_KHR 1,
        Event.reset_fence 1, Event.begin_record 1, Event.begin_render_pass 1 1,
        Event.vkCmdDraw 1, Event.end_render_pass 1, Event.end_record 1,
        Event.submit_frame 1 VK_SUCCESS,
        Event.present_frame 1 1 VK_SUCCESS, Event.get_framebuffer_resized false] ∧
    Event.recreate_swapchain ∉ main_trace [env_acquire_suboptimal 0, env_acquire_suboptimal 1] := by
  decide

/-- Claim C4, amended.  In every pass of the main loop in which `acquire_next_image`
returns `VK_SUBOPTIMAL_KHR`, the frame proceeds: the fence is reset, the
recording calls are made and `submit_frame` is called, with the current slot and
the acquired image; `present_frame` is called exactly when `submit_frame`
returns `VK_SUCCESS`; and `recreate_swapchain` is called in the pass (hence
before the next acquire) exactly when `present_frame` is reached and returns
`VK_ERROR_OUT_OF_DATE_KHR` or `VK_SUBOPTIMAL_KHR` or the window reports a
resize. -/
theorem acquire_suboptimal_proceeds (envs : List Env) (p : Pass)
    (hp : p ∈ main_passes envs) (hopen : p.env.should_close = false)
    (hsub : p.env.acquire_result = VK_SUBOPTIMAL_KHR) :
    (∃ rest, p.events =
      [Event.should_close false, Event.poll_events,
        Event.acquire_next_image p.before.current_frame VK_SUBOPTIMAL_KHR p.env.acquire_image,
        Event.reset_fence p.before.current_frame,
        Event.begin_record p.before.current_frame,
        Event.begin_render_pass p.before.current_frame p.env.acquire_image,
        Event.vkCmdDraw p.before.current_frame,
        Event.end_render_pass p.before.current_frame,
        Event.end_record p.before.current_frame,
        Event.submit_frame p.before.current_frame p.env.submit_result] ++ rest) ∧
    (Event.present_frame p.before.current_frame p.env.acquire_image p.env.present_result ∈
        p.events ↔ p.env.submit_result = VK_SUCCESS) ∧
    (Event.recreate_swapchain ∈ p.events ↔
      (p.env.submit_result = VK_SUCCESS ∧
        (p.env.present_result = VK_ERROR_OUT_OF_DATE_KHR ∨
          p.env.present_result = VK_SUBOPTIMAL_KHR ∨ p.env.framebuffer_resized = true))) := by
  have hm := passes_mem envs initial p hp
  have hne := ok_ne_out_of_date _ (Or.inr hsub)
  rw [hm.1]
  rcases loop_body_cases p.before p.env with ⟨c, q⟩ | ⟨c, q⟩ | ⟨c, q⟩ | ⟨c, q⟩ | ⟨c, q⟩ |
    ⟨c, q⟩ | ⟨c, q⟩ | ⟨c, q⟩
  · rw [hopen] at c; simp at c
  · exact absurd c.2 hne
  · exact absurd hsub c.2.2.2
  · rw [q, hsub]
    refine ⟨⟨_, rfl⟩, ?_, ?_⟩
    · have := c.2.2; simp; tauto
    · have := c.2.2; simp; tauto
  · rw [q, hsub]
    refine ⟨⟨_, rfl⟩, ?_, ?_⟩
    · have := c.2.2.1; simp; tauto
    · have := c.2.2.1; have := c.2.2.2; simp; tauto
  · rw [q, hsub]
    refine ⟨⟨_, rfl⟩, ?_, ?_⟩
    · have := c.2.2.1; simp; tauto
    · have := c.2.2.1; have := c.2.2.2.2.2; simp; tauto
  · rw [q, hsub]
    refine ⟨⟨_, rfl⟩, ?_, ?_⟩
    · have := c.2.2.1; simp; tauto
    · have := c.2.2.2.1; have := c.2.2.2.2.1; have := c.2.2.2.2.2.1; simp; tauto
  · rw [q, hsub]
    refine ⟨⟨_, rfl⟩, ?_, ?_⟩
    · have := c.2.2.1; simp; tauto
    · have h1 := c.2.2.2.1
      have h2 := c.2.2.2.2
      have hd := status_codes_distinct
      rw [h1, h2]; simp
      intro _
      exact ⟨hd.2.1, hd.1⟩

/-- A pass whose acquire and present both return `VK_SUBOPTIMAL_KHR`: the frame is
presented and the swapchain is recreated. -/
theorem acquire_suboptimal_proceeds_witness :
    pass_of initial ⟨false, VK_SUBOPTIMAL_KHR, 2, VK_SUCCESS, VK_SUBOPTIMAL_KHR, false⟩ ∈
      main_passes [⟨false, VK_SUBOPTIMAL_KHR, 2, VK_SUCCESS, VK_SUBOPTIMAL_KHR, false⟩] ∧
    Event.present_frame 0 2 VK_SUBOPTIMAL_KHR ∈
      (pass_of initial
        ⟨false, VK_SUBOPTIMAL_KHR, 2, VK_SUCCESS, VK_SUBOPTIMAL_KHR, false⟩).events ∧
    Event.recreate_swapchain ∈
      (pass_of initial
        ⟨false, VK_SUBOPTIMAL_KHR, 2, VK_SUCCESS, VK_SUBOPTIMAL_KHR, false⟩).events :=
  have h := acquire_suboptimal_proceeds
    [⟨false, VK_SUBOPTIMAL_KHR, 2, VK_SUCCESS, VK_SUBOPTIMAL_KHR, false⟩]
    (pass_of initial ⟨false, VK_SUBOPTIMAL_KHR, 2, VK_SUCCESS, VK_SUBOPTIMAL_KHR, false⟩)
    (by decide) rfl rfl
  ⟨by decide, h.2.1.mpr rfl, h.2.2.mpr ⟨rfl, Or.inr (Or.inl rfl)⟩⟩

/-- Claim C5 as stated fails.  When `present_frame` returns `VK_ERROR_DEVICE_LOST`
while the window reports a resize, the pass calls `recreate_swapchain`, makes no
`quix_error` call and ends normally; the loop goes on to a second pass, on
slot 1. -/
theorem present_error_with_resize_continues :
    (main_passes [env_present_device_lost 0 true, env_success 1]).map
      (fun p => (p.before.current_frame, p.env.present_result, p.flow)) =
      [(0, VK_ERROR_DEVICE_LOST, Flow.next ⟨1, 0⟩), (1, VK_SUCCESS, Flow.next ⟨0, 1⟩)] ∧
    main_trace [env_present_device_lost 0 true, env_success 1] =
      [Event.should_close false, Event.poll_events,
        Event.acquire_next_image 0 VK_SUCCESS 0,
        Event.reset_fence 0, Event.begin_record 0, Event.begin_render_pass 0 0,
        Event.vkCmdDraw 0, Event.end_render_pass 0, Event.end_record 0,
        Event.submit_frame 0 VK_SUCCESS,
        Event.present_frame 0 0 VK_ERROR_DEVICE_LOST, Event.get_framebuffer_resized true,
        Event.recreate_swapchain,
        Event.should_close false, Event.poll_events,
        Event.acquire_next_image 1 VK_SUCCESS 1,
        Event.reset_fence 1, Event.begin_record 1, Event.begin_render_pass 1 1,
        Event.vkCmdDraw 1, Event.end_render_pass 1, Event.end_record 1,
        Event.submit_frame 1 VK_SUCCESS,
        Event.present_frame 1 1 VK_SUCCESS, Event.get_framebuffer_resized false] := by
  decide

/-- Claim C5, amended.  In a pass of the main loop that starts with the window open:
an `acquire_next_image` status other than `VK_SUCCESS`, `VK_SUBOPTIMAL_KHR` and
`VK_ERROR_OUT_OF_DATE_KHR` ends the process in `quix_error`; when the acquire
succeeded, a `submit_frame` status other than `VK_SUCCESS` ends the process in
the failing branch of `VK_CHECK` (both for every value of the resize flag); and
when acquire and submit succeeded, a `present_frame` status other than the
three named ones ends the process in `quix_error` if the window reports no
resize.  In each case the pass is the last one executed. -/
theorem fatal_status_terminates (envs : List Env) (i : Nat) (p : Pass)
    (hp : (main_passes envs)[i]? = some p) (hopen : p.env.should_close = false) :
    (p.env.acquire_result ≠ VK_SUCCESS → p.env.acquire_result ≠ VK_SUBOPTIMAL_KHR →
      p.env.acquire_result ≠ VK_ERROR_OUT_OF_DATE_KHR →
      p.flow = Flow.exit_failure ∧
      p.events.getLast? = some (Event.quix_error ("failed to acquire swapchain image")) ∧
      (main_passes envs).length = i + 1) ∧
    (p.env.acquire_result = VK_SUCCESS ∨ p.env.acquire_result = VK_SUBOPTIMAL_KHR →
      p.env.submit_result ≠ VK_SUCCESS →
      p.flow = Flow.exit_failure ∧
      p.events.getLast? = some (Event.VK_CHECK_failed ("failed to submit frame")) ∧
      (main_passes envs).length = i + 1) ∧
    (p.env.acquire_result = VK_SUCCESS ∨ p.env.acquire_result = VK_SUBOPTIMAL_KHR →
      p.env.submit_result = VK_SUCCESS →
      p.env.present_result ≠ VK_SUCCESS → p.env.present_result ≠ VK_SUBOPTIMAL_KHR →
      p.env.present_result ≠ VK_ERROR_OUT_OF_DATE_KHR →
      p.env.framebuffer_resized = false →
      p.flow = Flow.exit_failure ∧
      p.events.getLast? = some (Event.quix_error ("failed to present swapchain image")) ∧
      (main_passes envs).length = i + 1) := by
  have hmem : p ∈ main_passes envs := List.getElem?_mem hp
  have hm := passes_mem envs initial p hmem
  have hstop : p.flow = Flow.exit_failure → (main_passes envs).length = i + 1 := by
    intro h
    exact passes_stop envs initial i p hp (fun st1 h1 => by rw [h] at h1; simp at h1)
  refine ⟨?_, ?_, ?_⟩
  · intro h1 h2 h3
    have hf : p.flow = Flow.exit_failure ∧
        p.events.getLast? = some (Event.quix_error ("failed to acquire swapchain image")) := by
      rw [hm.1, hm.2]
      simp [loop_body, hopen, h1, h2, h3]
    exact ⟨hf.1, hf.2, hstop hf.1⟩
  · intro h1 h2
    have hne := ok_ne_out_of_date _ h1
    have h1n : ¬ (p.env.acquire_result ≠ VK_SUCCESS ∧ p.env.acquire_result ≠ VK_SUBOPTIMAL_KHR) := by
      tauto
    have hf : p.flow = Flow.exit_failure ∧
        p.events.getLast? = some (Event.VK_CHECK_failed ("failed to submit frame")) := by
      rw [hm.1, hm.2]
      simp [loop_body, record_and_submit, hopen, hne, h1n, h2]
    exact ⟨hf.1, hf.2, hstop hf.1⟩
  · intro h1 h2 h3 h4 h5 h6
    have hf : p.flow = Flow.exit_failure ∧
        p.events.getLast? = some (Event.quix_error ("failed to present swapchain image")) := by
      rw [hm.1, hm.2, loop_body_reaches_present p.before p.env hopen h1 h2]
      simp [present_and_rotate, record_and_submit, h3, h4, h5, h6]
    exact ⟨hf.1, hf.2, hstop hf.1⟩

/-- A run whose first `present_frame` returns `VK_ERROR_DEVICE_LOST` with no resize
pending: the pass ends in `quix_error` and the second pass is not executed. -/
theorem fatal_status_terminates_witness :
    (main_passes [env_present_device_lost 0 false, env_success 1])[0]? =
      some (pass_of initial (env_present_device_lost 0 false)) ∧
    (pass_of initial (env_present_device_lost 0 false)).flow = Flow.exit_failure ∧
    (pass_of initial (env_present_device_lost 0 false)).events.getLast? =
      some (Event.quix_error ("failed to present swapchain image")) ∧
    (main_passes [env_present_device_lost 0 false, env_success 1]).length = 0 + 1 :=
  ⟨by decide,
    (fatal_status_terminates [env_present_device_lost 0 false, env_success 1] 0
      (pass_of initial (env_present_device_lost 0 false)) (by decide) rfl).2.2 (Or.inl rfl) rfl
      (by decide) (by decide) (by decide) rfl⟩

/-- Claim C6.  In a pass of the main loop that calls `present_frame`, no
`recreate_swapchain` precedes that call, no `acquire_next_image` follows it in
the pass, and `recreate_swapchain` is called after it if and only if the status
is `VK_ERROR_OUT_OF_DATE_KHR` or `VK_SUBOPTIMAL_KHR` or the window reports a
resize; with status `VK_SUCCESS` and no resize there is no recreation and the
loop continues with the next slot. -/
theorem recreate_after_present_iff (envs : List Env) (p : Pass) (slot : Int) (img : Nat)
    (r : VkResult) (hp : p ∈ main_passes envs)
    (hpres : Event.present_frame slot img r ∈ p.events) :
    ∃ pre post, p.events = pre ++ Event.present_frame slot img r :: post ∧
      Event.recreate_swapchain ∉ pre ∧
      (∀ s res i, Event.acquire_next_image s res i ∉ post) ∧
      (Event.recreate_swapchain ∈ post ↔
        (r = VK_ERROR_OUT_OF_DATE_KHR ∨ r = VK_SUBOPTIMAL_KHR ∨
          p.env.framebuffer_resized = true)) ∧
      (r = VK_SUCCESS → p.env.framebuffer_resized = false →
        Event.recreate_swapchain ∉ post ∧
        p.flow = Flow.next ⟨(slot + 1) % FRAMES_IN_FLIGHT, img⟩) := by
  have hm := passes_mem envs initial p hp
  have hr := main_passes_in_range envs p hp
  have hrot := (rotate_in_range p.before.current_frame hr.1 hr.2).1
  rw [hm.1] at hpres
  obtain ⟨hs, hi, hres, hc, ha, hsub⟩ := present_mem p.before p.env slot img r hpres
  subst hs hi hres
  have hb := loop_body_reaches_present p.before p.env hc ha hsub
  obtain ⟨post, h1, h2, h3, h4⟩ :=
    present_and_rotate_spec p.before.current_frame p.env.acquire_image p.env
  have hd := status_codes_distinct
  refine ⟨[Event.should_close false, Event.poll_events,
      Event.acquire_next_image p.before.current_frame p.env.acquire_result p.env.acquire_image] ++
      record_and_submit p.before.current_frame p.env.acquire_image p.env.submit_result,
    post, ?_, ?_, h2, h3, ?_⟩
  · rw [hm.1, hb, h1]
  · simp [record_and_submit]
  · intro h5 h6
    refine ⟨fun h => ?_, ?_⟩
    · rcases h3.mp h with h | h | h
      · rw [h5] at h; exact absurd h hd.2.1
      · rw [h5] at h; exact absurd h hd.1
      · rw [h6] at h; simp at h
    · rw [hm.2, hb, ← hrot]
      exact h4 h5 h6

/-- A successful pass on a window that is not resized: no call follows
`present_frame` but `get_framebuffer_resized`, and the loop continues. -/
theorem recreate_after_present_iff_witness :
    pass_of initial (env_success 4) ∈ main_passes [env_success 4] ∧
    (pass_of initial (env_success 4)).events =
      [Event.should_close false, Event.poll_events,
        Event.acquire_next_image 0 VK_SUCCESS 4,
        Event.reset_fence 0, Event.begin_record 0, Event.begin_render_pass 0 4,
        Event.vkCmdDraw 0, Event.end_render_pass 0, Event.end_record 0,
        Event.submit_frame 0 VK_SUCCESS,
        Event.present_frame 0 4 VK_SUCCESS, Event.get_framebuffer_resized false] ∧
    ∃ pre post, (pass_of initial (env_success 4)).events =
        pre ++ Event.present_frame 0 4 VK_SUCCESS :: post ∧
      Event.recreate_swapchain ∉ pre ∧
      (∀ s res i, Event.acquire_next_image s res i ∉ post) ∧
      (Event.recreate_swapchain ∈ post ↔
        (VK_SUCCESS = VK_ERROR_OUT_OF_DATE_KHR ∨ VK_SUCCESS = VK_SUBOPTIMAL_KHR ∨
          (pass_of initial (env_success 4)).env.framebuffer_resized = true)) ∧
      (VK_SUCCESS = VK_SUCCESS →
        (pass_of initial (env_success 4)).env.framebuffer_resized = false →
        Event.recreate_swapchain ∉ post ∧
        (pass_of initial (env_success 4)).flow =
          Flow.next ⟨(0 + 1) % FRAMES_IN_FLIGHT, 4⟩) :=
  ⟨by decide, by decide,
    recreate_after_present_iff [env_success 4] (pass_of initial (env_success 4)) 0 4 VK_SUCCESS
      (by decide) (by decide)⟩

/-- Claim C7.  In every pass of the main loop that reaches recording (the acquire
returned `VK_SUCCESS` or `VK_SUBOPTIMAL_KHR`), `acquire_next_image`,
`reset_fence`, the recording calls and `submit_frame` are made with the current
slot, `begin_render_pass` is passed the image index left by this pass's acquire,
and so is `present_frame` when it is reached.  Every image index in the pass is
the acquired one and every slot argument is the current slot, whatever the
acquired index is: it is not bounded by `FRAMES_IN_FLIGHT`. -/
theorem image_index_from_acquire_slot_from_rotation (envs : List Env) (p : Pass)
    (hp : p ∈ main_passes envs) (hopen : p.env.should_close = false)
    (hacq : p.env.acquire_result = VK_SUCCESS ∨ p.env.acquire_result = VK_SUBOPTIMAL_KHR) :
    (∃ rest, p.events =
      [Event.should_close false, Event.poll_events,
        Event.acquire_next_image p.before.current_frame p.env.acquire_result p.env.acquire_image,
        Event.reset_fence p.before.current_frame,
        Event.begin_record p.before.current_frame,
        Event.begin_render_pass p.before.current_frame p.env.acquire_image,
        Event.vkCmdDraw p.before.current_frame,
        Event.end_render_pass p.before.current_frame,
        Event.end_record p.before.current_frame,
        Event.submit_frame p.before.current_frame p.env.submit_result] ++ rest) ∧
    (p.env.submit_result = VK_SUCCESS →
      Event.present_frame p.before.current_frame p.env.acquire_image p.env.present_result ∈
        p.events) ∧
    (∀ ev ∈ p.events, ∀ i, ev.image? = some i → i = p.env.acquire_image) ∧
    (∀ ev ∈ p.events, ∀ s, ev.slot? = some s → s = p.before.current_frame) := by
  have hm := passes_mem envs initial p hp
  have hne := ok_ne_out_of_date _ hacq
  rw [hm.1]
  rcases loop_body_cases p.before p.env with ⟨c, q⟩ | ⟨c, q⟩ | ⟨c, q⟩ | ⟨c, q⟩ | ⟨c, q⟩ |
    ⟨c, q⟩ | ⟨c, q⟩ | ⟨c, q⟩
  · rw [hopen] at c; simp at c
  · exact absurd c.2 hne
  · exact absurd hacq (by have := c.2.2; tauto)
  all_goals
    rw [q]
    refine ⟨⟨_, rfl⟩, ?_, ?_, ?_⟩
    · intro h; first | exact absurd h c.2.2 | simp
    · simp [Event.image?]
    · simp [Event.slot?]

/-- A pass on slot 1 that acquires image 5, an index no slot can have: the render
pass and the present use image 5 and slot 1. -/
theorem image_index_from_acquire_slot_from_rotation_witness :
    pass_of ⟨1, 0⟩ (env_success 5) ∈ main_passes [env_success 0, env_success 5] ∧
    Event.begin_render_pass 1 5 ∈ (pass_of ⟨1, 0⟩ (env_success 5)).events ∧
    Event.present_frame 1 5 VK_SUCCESS ∈ (pass_of ⟨1, 0⟩ (env_success 5)).events ∧
    (∀ ev ∈ (pass_of ⟨1, 0⟩ (env_success 5)).events, ∀ i, ev.image? = some i → i = 5) ∧
    (∀ ev ∈ (pass_of ⟨1, 0⟩ (env_success 5)).events, ∀ s, ev.slot? = some s → s = 1) :=
  have h := image_index_from_acquire_slot_from_rotation [env_success 0, env_success 5]
    (pass_of ⟨1, 0⟩ (env_success 5)) (by decide) rfl (Or.inl rfl)
  ⟨by decide, by decide, h.2.1 rfl, h.2.2.1, h.2.2.2⟩

/-- Claim C8 as stated fails.  When `acquire_next_image` returns
`VK_ERROR_OUT_OF_DATE_KHR`, `recreate_swapchain` is the call directly after that
acquire, and no `present_frame` has been called at all. -/
theorem recreate_directly_after_acquire :
    main_trace [env_acquire_out_of_date 0] =
      [Event.should_close false, Event.poll_events,
        Event.acquire_next_image 0 VK_ERROR_OUT_OF_DATE_KHR 0, Event.recreate_swapchain] ∧
    recreate_only_in after_present_only Phase.start (main_trace [env_acquire_out_of_date 0]) =
      false := by
  decide

/-- Claim C8, amended.  Over every sequence of calls of `main`, every
`recreate_swapchain` happens either after a `present_frame` and before the next
`acquire_next_image`, or after an `acquire_next_image` that returned
`VK_ERROR_OUT_OF_DATE_KHR` and before the next `acquire_next_image`, and in the
second case no fence reset, recording call, `submit_frame` or `present_frame` is
made between that acquire and the next one.  It never happens before the first
acquire, nor between an acquire that returned another status and the
`present_frame` of that frame, so never after `begin_record` and before
`present_frame`.  Within a pass, a recreation is the last call of the pass and
the only recreation in it, and the pass is either the four calls of an abandoned
frame or a pass whose acquire was not out-of-date and that has called
`present_frame`. -/
theorem recreate_only_between_frames (envs : List Env) :
    recreate_only_in after_present_or_out_of_date Phase.start (main_trace envs) = true ∧
    recreation_between_frames FramePhase.before_first (main_trace envs) = true ∧
    (∀ p ∈ main_passes envs, Event.recreate_swapchain ∈ p.events →
      p.events.count Event.recreate_swapchain = 1 ∧
      p.events.getLast? = some Event.recreate_swapchain ∧
      ((p.env.acquire_result = VK_ERROR_OUT_OF_DATE_KHR ∧
          p.events =
            [Event.should_close false, Event.poll_events,
              Event.acquire_next_image p.before.current_frame VK_ERROR_OUT_OF_DATE_KHR
                p.env.acquire_image,
              Event.recreate_swapchain]) ∨
        (p.env.acquire_result ≠ VK_ERROR_OUT_OF_DATE_KHR ∧
          Event.present_frame p.before.current_frame p.env.acquire_image
            p.env.present_result ∈ p.events))) := by
  refine ⟨recreate_only_in_loop_trace envs initial Phase.start,
    recreation_between_frames_loop_trace envs initial FramePhase.before_first, ?_⟩
  intro p hp hrec
  have hm := passes_mem envs initial p hp
  rw [hm.1] at hrec ⊢
  rcases loop_body_cases p.before p.env with ⟨c, q⟩ | ⟨c, q⟩ | ⟨c, q⟩ | ⟨c, q⟩ | ⟨c, q⟩ |
    ⟨c, q⟩ | ⟨c, q⟩ | ⟨c, q⟩ <;> rw [q] at hrec ⊢ <;> simp at hrec
  · refine ⟨by simp, by simp, Or.inl ⟨c.2, ?_⟩⟩
    rw [c.2]
  · have hne := ok_ne_out_of_date _ c.2.1
    exact ⟨by simp, by simp, Or.inr ⟨hne, by simp⟩⟩
  · have hne := ok_ne_out_of_date _ c.2.1
    exact ⟨by simp, by simp, Or.inr ⟨hne, by simp⟩⟩

/-- Scenario B for claim C8: its calls pass the scan and its abandoned pass ends in
the recreation, while sequences that record or submit after an out-of-date
acquire, or recreate between `begin_record` and `present_frame`, are refused by
the scan. -/
theorem recreate_only_between_frames_witness :
    recreation_between_frames FramePhase.before_first (main_trace scenario_B) = true ∧
    pass_of ⟨1, 0⟩ (env_acquire_out_of_date 1) ∈ main_passes scenario_B ∧
    (pass_of ⟨1, 0⟩ (env_acquire_out_of_date 1)).events.getLast? =
      some Event.recreate_swapchain ∧
    recreation_between_frames FramePhase.before_first
      [Event.acquire_next_image 0 VK_ERROR_OUT_OF_DATE_KHR 0, Event.reset_fence 0,
        Event.begin_record 0, Event.submit_frame 0 VK_SUCCESS,
        Event.recreate_swapchain] = false ∧
    recreation_between_frames FramePhase.before_first
      [Event.acquire_next_image 0 VK_ERROR_OUT_OF_DATE_KHR 0, Event.recreate_swapchain,
        Event.submit_frame 0 VK_SUCCESS, Event.present_frame 0 0 VK_SUCCESS] = false ∧
    recreation_between_frames FramePhase.before_first
      [Event.acquire_next_image 0 VK_SUCCESS 0, Event.reset_fence 0, Event.begin_record 0,
        Event.recreate_swapchain, Event.submit_frame 0 VK_SUCCESS,
        Event.present_frame 0 0 VK_SUCCESS] = false :=
  have h := recreate_only_between_frames scenario_B
  ⟨h.2.1, by decide,
    (h.2.2 (pass_of ⟨1, 0⟩ (env_acquire_out_of_date 1)) (by decide) (by decide)).2.1,
    by decide, by decide, by decide⟩

/-- Claim C9 as stated fails.  When `create_device` is called a second time, the
builder obtained before it is bound to the first layout cache and the builder
obtained after it to the second one: two builders of one instance on which
`create_device` has been called do not share a cache. -/
theorem second_create_device_replaces_layout_cache :
    ((Instance.ctor 10 11).create_device 20 21).get_descriptor_builder (some 50) =
      ⟨some 21, some 50⟩ ∧
    (((Instance.ctor 10 11).create_device 20 21).after_all
      [Call.get_descriptor_builder (some 50), Call.create_device 22 23]).get_descriptor_builder
        (some 50) = ⟨some 23, some 50⟩ ∧
    (((Instance.ctor 10 11).create_device 20 21).get_descriptor_builder
        (some 50)).layout_cache ≠
      ((((Instance.ctor 10 11).create_device 20 21).after_all
        [Call.get_descriptor_builder (some 50),
          Call.create_device 22 23]).get_descriptor_builder (some 50)).layout_cache := by
  decide

/-- Claim C9, amended.  After `create_device` has stored a layout cache at `cache_ptr`, and
after any further member calls other than `create_device`,
`get_descriptor_builder(pool)` returns the builder made of that cache and of
exactly `pool`; the call leaves every member of the instance as it was; and a
builder obtained later, for any other pool and after any further such calls, is
bound to the same cache. -/
theorem descriptor_builder_shares_layout_cache (self : Instance) (allocator_ptr cache_ptr : Ptr)
    (calls more : List Call) (pool pool2 : Option Ptr)
    (h1 : ∀ c ∈ calls, c.is_create_device = false)
    (h2 : ∀ c ∈ more, c.is_create_device = false) :
    ((self.create_device allocator_ptr cache_ptr).after_all calls).get_descriptor_builder pool =
      ⟨some cache_ptr, pool⟩ ∧
    ((self.create_device allocator_ptr cache_ptr).after_all calls).after
        (Call.get_descriptor_builder pool) =
      (self.create_device allocator_ptr cache_ptr).after_all calls ∧
    ((self.create_device allocator_ptr cache_ptr).after_all
        (calls ++ Call.get_descriptor_builder pool :: more)).get_descriptor_builder pool2 =
      ⟨some cache_ptr, pool2⟩ := by
  have h3 : ∀ c ∈ calls ++ Call.get_descriptor_builder pool :: more,
      c.is_create_device = false := by
    intro c hc
    rcases List.mem_append.mp hc with h | h
    · exact h1 c h
    · rcases List.mem_cons.mp h with h | h
      · subst h; rfl
      · exact h2 c h
  refine ⟨?_, rfl, ?_⟩
  · unfold Instance.get_descriptor_builder
    rw [after_all_keeps_layout_cache calls _ h1]
    rfl
  · unfold Instance.get_descriptor_builder
    rw [after_all_keeps_layout_cache _ _ h3]
    rfl

/-- Two builders taken from one instance, for two different pools and with other
member calls in between, share the cache made by `create_device`. -/
theorem descriptor_builder_shares_layout_cache_witness :
    (∀ c ∈ [Call.create_swapchain 30, Call.create_pipeline_manager 40],
      c.is_create_device = false) ∧
    (∀ c ∈ [Call.get_command_pool], c.is_create_device = false) ∧
    (((Instance.ctor 10 11).create_device 20 21).after_all
      [Call.create_swapchain 30, Call.create_pipeline_manager 40]).get_descriptor_builder
        (some 50) = ⟨some 21, some 50⟩ ∧
    (((Instance.ctor 10 11).create_device 20 21).after_all
      ([Call.create_swapchain 30, Call.create_pipeline_manager 40] ++
        Call.get_descriptor_builder (some 50) :: [Call.get_command_pool])).get_descriptor_builder
        (some 60) = ⟨some 21, some 60⟩ :=
  have h := descriptor_builder_shares_layout_cache (Instance.ctor 10 11) 20 21
    [Call.create_swapchain 30, Call.create_pipeline_manager 40] [Call.get_command_pool]
    (some 50) (some 60) (by decide) (by decide)
  ⟨by decide, by decide, h.1, h.2.2⟩

/-- Claim C10.  For every pass the main loop executes: if its acquire returned
`VK_ERROR_OUT_OF_DATE_KHR`, the pass calls no `reset_fence`, leaves the slot as
it was, and the next pass, if any, starts on that slot and calls
`acquire_next_image` with it; if a pass changes the slot, it called
`present_frame`; and the slot is in `[0, FRAMES_IN_FLIGHT)` before the pass,
after it, and in every call the pass makes with a slot. -/
theorem slot_unchanged_when_frame_abandoned (envs : List Env) (i : Nat) (p : Pass)
    (hp : (main_passes envs)[i]? = some p) :
    (p.env.should_close = false → p.env.acquire_result = VK_ERROR_OUT_OF_DATE_KHR →
      (∀ s, Event.reset_fence s ∉ p.events) ∧
      p.flow = Flow.next ⟨p.before.current_frame, p.env.acquire_image⟩ ∧
      (∀ q, (main_passes envs)[i + 1]? = some q →
        q.before.current_frame = p.before.current_frame ∧
        (q.env.should_close = false →
          Event.acquire_next_image p.before.current_frame q.env.acquire_result
            q.env.acquire_image ∈ q.events))) ∧
    (∀ st, p.flow = Flow.next st → st.current_frame ≠ p.before.current_frame →
      Event.present_frame p.before.current_frame p.env.acquire_image p.env.present_result ∈
        p.events) ∧
    (0 ≤ p.before.current_frame ∧ p.before.current_frame < FRAMES_IN_FLIGHT) ∧
    (∀ st, p.flow = Flow.next st →
      0 ≤ st.current_frame ∧ st.current_frame < FRAMES_IN_FLIGHT) ∧
    (∀ ev ∈ p.events, ∀ s, ev.slot? = some s → 0 ≤ s ∧ s < FRAMES_IN_FLIGHT) := by
  have hmem : p ∈ main_passes envs := List.getElem?_mem hp
  have hm := passes_mem envs initial p hmem
  have hr := main_passes_in_range envs p hmem
  refine ⟨?_, ?_, hr, ?_, ?_⟩
  · intro hopen hood
    have hb : loop_body p.before p.env =
        ([Event.should_close false, Event.poll_events,
          Event.acquire_next_image p.before.current_frame p.env.acquire_result
            p.env.acquire_image,
          Event.recreate_swapchain],
         Flow.next ⟨p.before.current_frame, p.env.acquire_image⟩) := by
      simp [loop_body, hopen, hood]
    have hflow : p.flow = Flow.next ⟨p.before.current_frame, p.env.acquire_image⟩ := by
      rw [hm.2, hb]
    refine ⟨?_, hflow, ?_⟩
    · intro s
      rw [hm.1, hb]
      simp
    · intro q hq
      have hs := passes_succ envs initial i p q hp hq
      rw [hflow] at hs
      have hqb : q.before = ⟨p.before.current_frame, p.env.acquire_image⟩ := by
        injection hs with h; exact h.symm
      have hqm := passes_mem envs initial q (List.getElem?_mem hq)
      refine ⟨by rw [hqb], ?_⟩
      intro hqo
      have := acquire_mem q.before q.env hqo
      rw [hqm.1]
      rw [hqb] at this ⊢
      exact this
  · intro st hst hne
    rw [hm.2] at hst
    rw [hm.1]
    rcases loop_body_cases p.before p.env with ⟨c, q⟩ | ⟨c, q⟩ | ⟨c, q⟩ | ⟨c, q⟩ | ⟨c, q⟩ |
      ⟨c, q⟩ | ⟨c, q⟩ | ⟨c, q⟩ <;> rw [q] at hst ⊢ <;> simp at hst ⊢
    · subst hst; exact absurd rfl hne
  · intro st hst
    rw [hm.2] at hst
    exact loop_body_in_range p.before st p.env hr.1 hr.2 hst
  · intro ev hev s hs
    rw [hm.1] at hev
    rw [slot_mem p.before p.env ev hev s hs]
    exact hr

/-- Scenario B for claim C10: the abandoned second pass and the third pass both
acquire on slot 1. -/
theorem slot_unchanged_when_frame_abandoned_witness :
    (main_passes scenario_B)[1]? = some (pass_of ⟨1, 0⟩ (env_acquire_out_of_date 1)) ∧
    (main_passes scenario_B)[2]? = some (pass_of ⟨1, 1⟩ (env_success 1)) ∧
    (∀ s, Event.reset_fence s ∉ (pass_of ⟨1, 0⟩ (env_acquire_out_of_date 1)).events) ∧
    (pass_of ⟨1, 0⟩ (env_acquire_out_of_date 1)).flow = Flow.next ⟨1, 1⟩ ∧
    Event.acquire_next_image 1 VK_SUCCESS 1 ∈ (pass_of ⟨1, 1⟩ (env_success 1)).events :=
  have h := (slot_unchanged_when_frame_abandoned scenario_B 1
    (pass_of ⟨1, 0⟩ (env_acquire_out_of_date 1)) (by decide)).1 rfl rfl
  ⟨by decide, by decide, h.1, h.2.1,
    (h.2.2 (pass_of ⟨1, 1⟩ (env_success 1)) (by decide)).2 rfl⟩


end Quix
